import Mathlib

/-!
Verification of the Todoist ↔ Notion sync function (`src/main.py`).

The program is a sequential HTTP orchestration script.  We embed the parts
of it that the specification talks about as pure Lean functions: every
vendor HTTP call is represented either by the data it returns (supplied as
an input or through a `SyncEnv` record of oracle results) or by a request
event appended to an explicit trace; a Python exception is an
`Except.error`; Python dicts keyed by strings are association lists; the
Firestore `task_mappings` collection is a list of `TaskMapping` documents.
Python truthiness on optional strings (`None` and `""` are falsy) is made
explicit through `truthyStr`.
-/

namespace ProductivitySync

/-- A Todoist project as consumed by `src/main.py` (fields read by the code:
`id`, `name`, `parent_id`, `is_archived`). -/
structure TodoistProject where
  id : String
  name : String
  parentId : Option String
  isArchived : Bool
deriving Repr, DecidableEq

/-- A Todoist task as consumed by `src/main.py` (fields read by the code:
`id`, `content`, `is_completed`, `due.date`, `project_id`, `labels`). -/
structure TodoistTask where
  id : String
  content : String
  isCompleted : Bool
  due : Option String
  projectId : Option String
  labels : List String
deriving Repr, DecidableEq

/-- The fields of a Notion page that `src/main.py` reads.  `nameTitle` is
`some s` exactly when the page's properties contain a `"Name"` title
property whose title array is non-empty and whose first element has text
content `s`; the code guards this access with a membership test and a
caught `KeyError`/`IndexError`, which the `Option` models.  The remaining
fields model the `Source`/`Status` selects, the `Todoist ID` rich-text, the
`Todoist URL` url, the `Done` checkbox (`.get` default `False`), the
`Due Date` start, the `All Pete's Projects` relation ids and the `Type`
select. -/
structure NotionPage where
  id : String
  nameTitle : Option String
  sourceName : Option String
  statusName : Option String
  todoistIdProp : Option String
  todoistUrl : Option String
  doneCheckbox : Bool
  dueDate : Option String
  projectRelation : List String
  typeSelect : Option String
deriving Repr, DecidableEq

/-- A document of the Firestore `task_mappings` collection: the document id
plus the `todoist_id` / `notion_id` fields (each may be absent). -/
structure TaskMapping where
  docId : String
  todoistId : Option String
  notionId : Option String
deriving Repr, DecidableEq

/-- Python truthiness of an optional string: `None` and `""` are falsy. -/
def truthyStr : Option String → Option String
  | none => none
  | some s => if s = "" then none else some s

/-- Dictionary lookup on an association list (first binding wins, as for a
Python dict that is only built with distinct keys). -/
def assocFind {β : Type} (m : List (String × β)) (k : String) : Option β :=
  (m.find? (fun kv => kv.1 == k)).map (fun kv => kv.2)

/-- Dictionary assignment `m[k] = v` on an association list: replaces the
existing binding of `k` or appends a new one. -/
def assocSet {β : Type} (m : List (String × β)) (k : String) (v : β) :
    List (String × β) :=
  match m with
  | [] => [(k, v)]
  | kv :: rest => if kv.1 == k then (k, v) :: rest else kv :: assocSet rest k v

/-- Firestore `document(id).set(data)`: replaces the document with id
`m.docId` if present, otherwise adds it. -/
def setMappingDoc (mappings : List TaskMapping) (m : TaskMapping) :
    List TaskMapping :=
  match mappings with
  | [] => [m]
  | m0 :: rest => if m0.docId == m.docId then m :: rest else m0 :: setMappingDoc rest m

/-- Firestore `collection('task_mappings').document(docId).get()`. -/
def findMappingDoc (mappings : List TaskMapping) (docId : String) :
    Option TaskMapping :=
  mappings.find? (fun m => m.docId == docId)

/-! ### `create_or_update_notion_project` (src/main.py lines 121-160) -/

/-- The page-lookup loop of `create_or_update_notion_project`: the id of the
first page of `existing` whose Name title text is `==`-equal to `name`
(literal string comparison, no normalization; pages without an extractable
Name title are skipped by the caught `KeyError`/`IndexError`). -/
def findExistingProjectPage (existing : List NotionPage) (name : String) :
    Option String :=
  (existing.find? (fun page => page.nameTitle == some name)).map (fun page => page.id)

/-- The `properties` payload built by `create_or_update_notion_project`
(`Last Synced`, a wall-clock timestamp, is not modelled). -/
structure NotionProjectProps where
  name : String
  source : String
  todoistUrl : Option String
  todoistIdText : Option String
  status : String
  category : Option String
deriving Repr, DecidableEq

/-- The string literal prefixed to the project id to form the `Todoist URL`
property (the literal as it appears in src/main.py line 144). -/
def todoistProjectUrlBase : String :=
  "[https://todoist.com/app/project/](https://todoist.com/app/project/)"

/-- Payload construction of `create_or_update_notion_project` (lines
137-152): `Source` is always "Todoist", `Status` is "Done" for an archived
project and "In Progress" otherwise, and `Category` is set only when the
project has a truthy `parent_id` whose parent's name is non-empty and
present in `category_map`. -/
def notionProjectProperties (proj : TodoistProject)
    (allTodoist : List TodoistProject) (categoryMap : List (String × String)) :
    NotionProjectProps :=
  { name := proj.name
    source := "Todoist"
    todoistUrl := some (todoistProjectUrlBase ++ proj.id)
    todoistIdText := some proj.id
    status := if proj.isArchived then "Done" else "In Progress"
    category :=
      match truthyStr proj.parentId with
      | none => none
      | some pid =>
        match allTodoist.find? (fun p => p.id == pid) with
        | none => none
        | some parent =>
          if parent.name = "" then none else assocFind categoryMap parent.name }

/-- The HTTP write issued by `create_or_update_notion_project`: `PATCH
/v1/pages/{page_id}` or `POST /v1/pages`. -/
inductive NotionWrite where
  | patchPage (pageId : String) (props : NotionProjectProps)
  | createPage (props : NotionProjectProps)
deriving Repr, DecidableEq

/-- Whether the write is an update (HTTP PATCH) of an existing page. -/
def NotionWrite.isPatch : NotionWrite → Bool
  | .patchPage _ _ => true
  | .createPage _ => false

/-- Function `create_or_update_notion_project` (lines 121-160): PATCH the first
name-matching page of `existing`, otherwise POST a new page. -/
def create_or_update_notion_project (proj : TodoistProject)
    (existing : List NotionPage) (allTodoist : List TodoistProject)
    (categoryMap : List (String × String)) : NotionWrite :=
  match findExistingProjectPage existing proj.name with
  | some pid => .patchPage pid (notionProjectProperties proj allTodoist categoryMap)
  | none => .createPage (notionProjectProperties proj allTodoist categoryMap)

/-! ### `create_or_update_todoist_project` (src/main.py lines 162-183) -/

/-- The effect of `create_or_update_todoist_project` on Todoist: reuse the
matching existing project (optionally toggling its archive state) or create
a new one (optionally archiving it right away). -/
inductive TodoistProjectAction where
  | reuseProject (id : String) (archiveToggle : Option Bool)
  | createProject (name : String) (thenArchive : Bool)
deriving Repr, DecidableEq

/-- Whether the action reuses an existing Todoist project. -/
def TodoistProjectAction.isReuse : TodoistProjectAction → Bool
  | .reuseProject _ _ => true
  | .createProject _ _ => false

/-- Line 167: `status_name in ["Done", "Canceled"]`. -/
def notionStatusIsArchived (statusName : Option String) : Bool :=
  statusName == some "Done" || statusName == some "Canceled"

/-- Function `create_or_update_todoist_project` (lines 162-183).  Reading the Name
title (line 165) is unguarded, so a page without one raises `KeyError`.
Otherwise the function reuses the first Todoist project whose `name` is
`==`-equal to the page's Name title and creates a new project when there is
none. -/
def create_or_update_todoist_project (npage : NotionPage)
    (todoistProjects : List TodoistProject) : Except String TodoistProjectAction :=
  match npage.nameTitle with
  | none => .error "KeyError: Name"
  | some projectName =>
    let isArchived := notionStatusIsArchived npage.statusName
    match todoistProjects.find? (fun p => p.name == projectName) with
    | some existing =>
      .ok (.reuseProject existing.id
        (if existing.isArchived != isArchived then some isArchived else none))
    | none => .ok (.createProject projectName isArchived)

/-! ### `create_or_update_notion_task` (src/main.py lines 185-236) -/

/-- The task `properties` payload built at lines 195-211. -/
structure NotionTaskProps where
  name : String
  done : Bool
  todoistIdText : String
  dueDate : Option String
  projectRelation : Option String
  typeSelect : Option String
deriving Repr, DecidableEq

/-- The HTTP write issued by `create_or_update_notion_task`. -/
inductive NotionTaskWrite where
  | patchPage (pageId : String) (props : NotionTaskProps)
  | createPage (props : NotionTaskProps)
deriving Repr, DecidableEq

/-- Whether the task write is an update (HTTP PATCH) of an existing page. -/
def NotionTaskWrite.isPatch : NotionTaskWrite → Bool
  | .patchPage _ _ => true
  | .createPage _ => false

/-- The properties payload of the written task. -/
def NotionTaskWrite.propsOf : NotionTaskWrite → NotionTaskProps
  | .patchPage _ props => props
  | .createPage props => props

/-- Payload construction of `create_or_update_notion_task` (lines 195-211):
`Done` is `is_completed or task_data.get("is_completed", False)`; the
project relation is set when the task's `project_id` is a key of
`project_map`; `Type` is the label-map name of the first of the task's
labels that is a key of `label_map`. -/
def notionTaskProperties (task : TodoistTask)
    (projectMap : List (String × String)) (labelMap : List (String × String))
    (isCompleted : Bool) : NotionTaskProps :=
  { name := task.content
    done := isCompleted || task.isCompleted
    todoistIdText := task.id
    dueDate := task.due
    projectRelation :=
      match task.projectId with
      | none => none
      | some pid => assocFind projectMap pid
    typeSelect := task.labels.findSome? (fun lid => assocFind labelMap lid) }

/-- Lines 191-193: `page_id` — the truthy `notion_id` of the
`task_mappings` document keyed by the task's id, if any. -/
def cachedNotionPageId (mappings : List TaskMapping) (docId : String) :
    Option String :=
  match findMappingDoc mappings docId with
  | some m => truthyStr m.notionId
  | none => none

/-- Function `create_or_update_notion_task` (lines 185-236).  The Firestore
`task_mappings` document keyed by the task's id decides update versus
create: a truthy `notion_id` in it yields a PATCH of that page; otherwise
the function POSTs a new page (the environment supplies its id
`newPageId`) and then `set`s the mapping document to hold both external
ids.  Returns the write together with the resulting mapping collection. -/
def create_or_update_notion_task (task : TodoistTask)
    (mappings : List TaskMapping) (projectMap labelMap : List (String × String))
    (isCompleted : Bool) (newPageId : String) :
    NotionTaskWrite × List TaskMapping :=
  let pageId := cachedNotionPageId mappings task.id
  let props := notionTaskProperties task projectMap labelMap isCompleted
  match pageId with
  | some pid => (.patchPage pid props, mappings)
  | none =>
    (.createPage props,
     setMappingDoc mappings
       { docId := task.id, todoistId := some task.id, notionId := some newPageId })

/-! ### `create_or_update_todoist_task` (src/main.py lines 238-319) -/

/-- Lines 246-254: resolve the Todoist id of a Notion task page — the
`todoist_id` of the first `task_mappings` document whose `notion_id` equals
the page id, falling back to the page's `Todoist ID` rich-text property
when that is not truthy; the result itself must be truthy (`if todoist_id:`
at line 271). -/
def resolveTodoistId (npage : NotionPage) (mappings : List TaskMapping) :
    Option String :=
  let fromMap : Option String :=
    match mappings.find? (fun m => m.notionId == some npage.id) with
    | some m => m.todoistId
    | none => none
  let tid : Option String :=
    match truthyStr fromMap with
    | some t => some t
    | none => npage.todoistIdProp
  truthyStr tid

/-- The HTTP requests that `create_or_update_todoist_task` can issue. -/
inductive TaskReq where
  | createLabel (name : String)
  | checkTask (id : String)
  | updateTask (id : String)
  | closeTask (id : String)
  | reopenTask (id : String)
  | createTask
deriving Repr, DecidableEq

/-- The overall effect of `create_or_update_todoist_task` on Todoist. -/
inductive TodoistTaskOutcome where
  | updatedTask (todoistId : String) (closed : Bool) (reopened : Bool)
  | createdTask (newId : String) (closedAfter : Bool)
deriving Repr, DecidableEq

/-- Outcomes of the HTTP calls `create_or_update_todoist_task` makes, fixed
up front: the status of the existence-check GET, the checked task's
`is_completed`, whether the update POST / close-or-reopen POST / create
POST / close-after-create POST succeed, the id Todoist assigns to a created
task, and the data used by `get_or_create_label`. -/
structure TodoistTaskEnv where
  checkStatus : Nat
  checkCompleted : Bool
  updateOk : Bool
  closeReopenOk : Bool
  createOk : Bool
  closeNewOk : Bool
  newTaskId : String
  newLabelId : String
  labelCreateOk : Bool
deriving Repr, DecidableEq

/-- The result of `create_or_update_todoist_task`: the outcome (or the
uncaught exception), the resulting `task_mappings` collection, and the
trace of HTTP requests issued, in order. -/
structure TodoistTaskResult where
  outcome : Except String TodoistTaskOutcome
  mappings : List TaskMapping
  reqs : List TaskReq
deriving Repr

/-- Function `get_or_create_label` (lines 74-80): return the id of the first
existing label with the given name, otherwise POST a new label.  The
existing labels are `(id, name)` pairs. -/
def get_or_create_label (labelName : String)
    (existingLabels : List (String × String)) (newLabelId : String)
    (createOk : Bool) : Except String String × List TaskReq :=
  match existingLabels.find? (fun l => l.2 == labelName) with
  | some l => (.ok l.1, [])
  | none =>
    if createOk then (.ok newLabelId, [.createLabel labelName])
    else (.error "HTTPError: create label", [.createLabel labelName])

/-- The create branch of `create_or_update_todoist_task` (lines 301-319):
POST a new task; on success `set` the mapping document keyed by the new
task's id with both external ids, then close the task when the page's
`Done` checkbox is set.  A failing POST propagates (`raise_for_status`),
after the mapping write a failing close also propagates. -/
def todoistTaskCreatePath (npage : NotionPage) (mappings : List TaskMapping)
    (env : TodoistTaskEnv) (isDone : Bool) (reqsSoFar : List TaskReq) :
    TodoistTaskResult :=
  if env.createOk then
    let newMappings := setMappingDoc mappings
      { docId := env.newTaskId, todoistId := some env.newTaskId,
        notionId := some npage.id }
    if isDone then
      if env.closeNewOk then
        { outcome := .ok (.createdTask env.newTaskId true), mappings := newMappings,
          reqs := reqsSoFar ++ [.createTask, .closeTask env.newTaskId] }
      else
        { outcome := .error "HTTPError: close", mappings := newMappings,
          reqs := reqsSoFar ++ [.createTask, .closeTask env.newTaskId] }
    else
      { outcome := .ok (.createdTask env.newTaskId false), mappings := newMappings,
        reqs := reqsSoFar ++ [.createTask] }
  else
    { outcome := .error "HTTPError: create", mappings := mappings,
      reqs := reqsSoFar ++ [.createTask] }

/-- Lines 271-319 of `create_or_update_todoist_task`, after the payload is
built: the update-or-create branch.  When a truthy Todoist id resolves, the
function first GETs the task; on status 200 it POSTs an update and then
closes or reopens the task when the `Done` checkbox disagrees with the
fetched `is_completed`; any of these raising `HTTPError` — and likewise a
non-200 check — falls through to the create branch (`todoist_id = None`).
Without a resolvable id it goes straight to the create branch.  `pre` is
the request trace of the payload construction (a possible label
creation). -/
def todoistTaskSyncCore (npage : NotionPage) (mappings : List TaskMapping)
    (env : TodoistTaskEnv) (isDone : Bool) (pre : List TaskReq) :
    TodoistTaskResult :=
  match resolveTodoistId npage mappings with
  | some tid =>
    if env.checkStatus == 200 then
      if env.updateOk then
        if isDone && !env.checkCompleted then
          if env.closeReopenOk then
            { outcome := .ok (.updatedTask tid true false), mappings := mappings,
              reqs := pre ++ [.checkTask tid, .updateTask tid, .closeTask tid] }
          else
            todoistTaskCreatePath npage mappings env isDone
              (pre ++ [.checkTask tid, .updateTask tid, .closeTask tid])
        else if !isDone && env.checkCompleted then
          if env.closeReopenOk then
            { outcome := .ok (.updatedTask tid false true), mappings := mappings,
              reqs := pre ++ [.checkTask tid, .updateTask tid, .reopenTask tid] }
          else
            todoistTaskCreatePath npage mappings env isDone
              (pre ++ [.checkTask tid, .updateTask tid, .reopenTask tid])
        else
          { outcome := .ok (.updatedTask tid false false), mappings := mappings,
            reqs := pre ++ [.checkTask tid, .updateTask tid] }
      else
        todoistTaskCreatePath npage mappings env isDone
          (pre ++ [.checkTask tid, .updateTask tid])
    else
      todoistTaskCreatePath npage mappings env isDone (pre ++ [.checkTask tid])
  | none => todoistTaskCreatePath npage mappings env isDone pre

/-- Function `create_or_update_todoist_task` (lines 238-319).  Reading the Name
title (line 242) is unguarded.  The payload construction may create a new
label (`get_or_create_label`); the update-or-create branch is
`todoistTaskSyncCore`. -/
def create_or_update_todoist_task (npage : NotionPage)
    (mappings : List TaskMapping) (existingLabels : List (String × String))
    (env : TodoistTaskEnv) : TodoistTaskResult :=
  match npage.nameTitle with
  | none => { outcome := .error "KeyError: Name", mappings := mappings, reqs := [] }
  | some _taskName =>
    let isDone := npage.doneCheckbox
    let labelPart : Except String Unit × List TaskReq :=
      match npage.typeSelect with
      | none => (.ok (), [])
      | some typeName =>
        let r := get_or_create_label typeName existingLabels env.newLabelId env.labelCreateOk
        (r.1.map (fun _ => ()), r.2)
    match labelPart.1 with
    | .error e => { outcome := .error e, mappings := mappings, reqs := labelPart.2 }
    | .ok _ => todoistTaskSyncCore npage mappings env isDone labelPart.2

/-- The single request issued by `get_todoist_projects` (lines 40-44). -/
inductive FetchReq where
  | getProjects
deriving Repr, DecidableEq

/-- Function `get_todoist_projects` issues exactly this request list: one GET of
`/rest/v2/projects`, with no retry. -/
def get_todoist_projects_requests : List FetchReq := [.getProjects]

/-! ### `sync_task_completion_status` (src/main.py lines 321-367) -/

/-- The `status_updates` counters returned by
`sync_task_completion_status`. -/
structure StatusUpdates where
  todoist_to_notion : Nat
  notion_to_todoist : Nat
deriving Repr, DecidableEq

/-- A write issued by `sync_task_completion_status`: `PATCH` of a Notion
page setting its `Done` checkbox. -/
inductive StatusWrite where
  | patchDone (notionId : String) (value : Bool)
deriving Repr, DecidableEq

/-- Lines 330-334: build `todoist_status_map` — every active task id maps
to `False`, then every completed task id is overwritten to `True`. -/
def todoistStatusMap (todoistTasks : List TodoistTask)
    (completedIds : List String) : List (String × Bool) :=
  let m0 := todoistTasks.foldl (fun acc t => assocSet acc t.id false) []
  completedIds.foldl (fun acc tid => assocSet acc tid true) m0

/-- Line 346: `todoist_status_map.get(todoist_id, False)`. -/
def lookupStatus (m : List (String × Bool)) (tid : String) : Bool :=
  (assocFind m tid).getD false

/-- The body of the mapping loop of `sync_task_completion_status` (lines
339-365), one `task_mappings` document at a time: with truthy `todoist_id`
and `notion_id`, a Notion task found by id and a status mismatch, the
Todoist-completed case PATCHes the Notion `Done` checkbox to `True` and
increments `todoist_to_notion`; the opposite mismatch falls into the
`pass` branch (lines 362-365) and does nothing. -/
def statusFoldStep (statusMap : List (String × Bool))
    (notionTasks : List NotionPage) (acc : StatusUpdates × List StatusWrite)
    (m : TaskMapping) : StatusUpdates × List StatusWrite :=
  match truthyStr m.todoistId, truthyStr m.notionId with
  | some tid, some nid =>
    let todoistCompleted := lookupStatus statusMap tid
    match notionTasks.find? (fun t => t.id == nid) with
    | some ntask =>
      if todoistCompleted != ntask.doneCheckbox then
        if todoistCompleted then
          ({ acc.1 with todoist_to_notion := acc.1.todoist_to_notion + 1 },
           acc.2 ++ [.patchDone nid true])
        else acc
      else acc
    | none => acc
  | _, _ => acc

/-- The writes the loop body produces for one mapping document (used to
characterize the full trace). -/
def statusWritesFor (statusMap : List (String × Bool))
    (notionTasks : List NotionPage) (m : TaskMapping) : List StatusWrite :=
  match truthyStr m.todoistId, truthyStr m.notionId with
  | some tid, some nid =>
    match notionTasks.find? (fun t => t.id == nid) with
    | some ntask =>
      if lookupStatus statusMap tid != ntask.doneCheckbox then
        if lookupStatus statusMap tid then [.patchDone nid true] else []
      else []
    | none => []
  | _, _ => []

/-- Function `sync_task_completion_status` (lines 321-367): fold the loop body over
all `task_mappings` documents, starting from both counters at `0`.
`completedIds` are the ids of `get_todoist_completed_tasks()`. -/
def sync_task_completion_status (todoistTasks : List TodoistTask)
    (completedIds : List String) (mappings : List TaskMapping)
    (notionTasks : List NotionPage) : StatusUpdates × List StatusWrite :=
  mappings.foldl
    (statusFoldStep (todoistStatusMap todoistTasks completedIds) notionTasks)
    ({ todoist_to_notion := 0, notion_to_todoist := 0 }, [])

/-! ### `sync_all` (src/main.py lines 369-486)

The orchestration is modelled over a `SyncEnv` that fixes the result of
every vendor interaction: the three fetches of the Notion project database
(lines 382, 400, 415) may each return different data, every per-item sync
call is an oracle that either succeeds or raises, and the final
`sync_history` write may itself fail.  `sync_all` returns the `results`
dictionary (or the propagated exception) together with the ordered trace
of its vendor interactions. -/

/-- One vendor interaction of `sync_all`, in the order the phases occur in
the function body. -/
inductive SyncEvent where
  | fetchTodoistProjects
  | fetchNotionProjects
  | fetchCategories
  | syncProjectTN (name : String)
  | fetchNotionProjectsAgain
  | syncProjectNT (pageId : String)
  | fetchNotionProjectsFinal
  | fetchTodoistTasks
  | fetchNotionTasks
  | fetchLabels
  | statusSyncPass
  | syncTaskTN (taskId : String)
  | syncCompletedTN (taskId : String)
  | syncTaskNT (pageId : String)
  | writeHistory
deriving Repr, DecidableEq

/-- The phase number of an event: the position of its phase in the body of
`sync_all`. -/
def SyncEvent.phase : SyncEvent → Nat
  | .fetchTodoistProjects => 0
  | .fetchNotionProjects => 1
  | .fetchCategories => 2
  | .syncProjectTN _ => 3
  | .fetchNotionProjectsAgain => 4
  | .syncProjectNT _ => 5
  | .fetchNotionProjectsFinal => 6
  | .fetchTodoistTasks => 7
  | .fetchNotionTasks => 8
  | .fetchLabels => 9
  | .statusSyncPass => 10
  | .syncTaskTN _ => 11
  | .syncCompletedTN _ => 12
  | .syncTaskNT _ => 13
  | .writeHistory => 14

/-- The `results` dictionary built by `sync_all` (lines 372-376), plus the
`error` key set by the outer exception handler (line 481). -/
structure SyncResults where
  projects_created : Nat
  projects_updated : Nat
  projects_errors : List String
  tasks_created : Nat
  tasks_updated : Nat
  tasks_status_synced : Nat
  tasks_errors : List String
  error : Option String
deriving Repr, DecidableEq

/-- The initial `results` value. -/
def SyncResults.init : SyncResults :=
  { projects_created := 0, projects_updated := 0, projects_errors := []
    tasks_created := 0, tasks_updated := 0, tasks_status_synced := 0
    tasks_errors := [], error := none }

/-- The environment of one `sync_all` invocation: every vendor-call result,
fixed up front.  Fetches and per-item sync calls that the code lets raise
are `Except`; `get_notion_categories` and `get_todoist_completed_tasks`
swallow their own failures (lines 117-119, 59-60) and so always yield a
value.  `statusSyncFails` models `sync_task_completion_status` itself
raising (e.g. a Firestore stream failure); `historyWrite` is the final
`db.collection('sync_history').add(results)` at line 484, which sits
outside the `try` block. -/
structure SyncEnv where
  todoistProjects : Except String (List TodoistProject)
  notionProjects1 : Except String (List NotionPage)
  categories : List (String × String)
  syncProjTN : TodoistProject → Except String String
  notionProjects2 : Except String (List NotionPage)
  syncProjNT : NotionPage → Except String Unit
  notionProjects3 : Except String (List NotionPage)
  todoistTasks : Except String (List TodoistTask)
  notionTasks : Except String (List NotionPage)
  todoistLabels : Except String (List (String × String))
  completedTasks : List TodoistTask
  mappings : List TaskMapping
  statusSyncFails : Option String
  syncTaskTN : TodoistTask → Except String String
  syncCompletedTN : TodoistTask → Except String Unit
  syncTaskNT : NotionPage → Except String Unit
  historyWrite : Except String Unit

/-- Lines 388-396, the Todoist→Notion project loop: each item is synced in
turn; a success is counted as updated when the returned page id was already
in the initially fetched `notion_projects` and as created otherwise; a
failure appends to `projects.errors` and the loop continues. -/
def projTNLoop (env : SyncEnv) (nps : List NotionPage) :
    List TodoistProject → SyncResults → SyncResults × List SyncEvent
  | [], r => (r, [])
  | p :: rest, r =>
    let r' :=
      match env.syncProjTN p with
      | .ok pageId =>
        if nps.any (fun page => page.id == pageId) then
          { r with projects_updated := r.projects_updated + 1 }
        else { r with projects_created := r.projects_created + 1 }
      | .error e =>
        { r with projects_errors :=
            r.projects_errors ++ ["T->N Project " ++ p.name ++ ": " ++ e] }
    let next := projTNLoop env nps rest r'
    (next.1, .syncProjectTN p.name :: next.2)

/-- Lines 399-410, the Notion→Todoist project loop: pages whose `Source`
select is "Todoist" are skipped; a success counts as updated; on failure
the handler itself reads the page's Name title (line 409), so a page
without one re-raises out of the loop (the `Option String` result), while
otherwise the error is recorded and the loop continues. -/
def projNTLoop (env : SyncEnv) :
    List NotionPage → SyncResults → (SyncResults × List SyncEvent) × Option String
  | [], r => ((r, []), none)
  | p :: rest, r =>
    if p.sourceName == some "Todoist" then projNTLoop env rest r
    else
      match env.syncProjNT p with
      | .ok _ =>
        let next := projNTLoop env rest
          { r with projects_updated := r.projects_updated + 1 }
        ((next.1.1, .syncProjectNT p.id :: next.1.2), next.2)
      | .error e =>
        match p.nameTitle with
        | some nm =>
          let next := projNTLoop env rest
            { r with projects_errors :=
                r.projects_errors ++ ["N->T Project " ++ nm ++ ": " ++ e] }
          ((next.1.1, .syncProjectNT p.id :: next.1.2), next.2)
        | none => ((r, [.syncProjectNT p.id]), some "KeyError: Name")

/-- Lines 412-431: build `project_map` / `project_map_reverse` from the
final Notion project fetch — the `Todoist ID` rich-text when its list is
non-empty, else the last `/`-segment of the `Todoist URL`, else skip. -/
def buildProjectMaps (nps : List NotionPage) :
    List (String × String) × List (String × String) :=
  nps.foldl
    (fun maps np =>
      let tid? : Option String :=
        match np.todoistIdProp with
        | some t => some t
        | none =>
          match np.todoistUrl with
          | some url => some ((url.splitOn "/").getLastD "")
          | none => none
      match tid? with
      | none => maps
      | some tid => (assocSet maps.1 tid np.id, assocSet maps.2 np.id tid))
    ([], [])

/-- Lines 446-458, the Todoist→Notion task loop: a success counts as
updated when the returned page id was among the fetched Notion task ids and
created otherwise; a failure appends to `tasks.errors` and the loop
continues. -/
def taskTNLoop (env : SyncEnv) (existingIds : List String) :
    List TodoistTask → SyncResults → SyncResults × List SyncEvent
  | [], r => (r, [])
  | t :: rest, r =>
    let r' :=
      match env.syncTaskTN t with
      | .ok pageId =>
        if existingIds.contains pageId then
          { r with tasks_updated := r.tasks_updated + 1 }
        else { r with tasks_created := r.tasks_created + 1 }
      | .error e =>
        { r with tasks_errors :=
            r.tasks_errors ++ ["T->N Task " ++ t.content ++ ": " ++ e] }
    let next := taskTNLoop env existingIds rest r'
    (next.1, .syncTaskTN t.id :: next.2)

/-- Lines 460-466, the completed-task loop over the first 50 completed
tasks: successes change no counter; failures append to `tasks.errors`. -/
def completedTNLoop (env : SyncEnv) :
    List TodoistTask → SyncResults → SyncResults × List SyncEvent
  | [], r => (r, [])
  | t :: rest, r =>
    let r' :=
      match env.syncCompletedTN t with
      | .ok _ => r
      | .error e =>
        { r with tasks_errors :=
            r.tasks_errors ++ ["T->N Completed Task " ++ t.content ++ ": " ++ e] }
    let next := completedTNLoop env rest r'
    (next.1, .syncCompletedTN t.id :: next.2)

/-- Lines 468-475, the Notion→Todoist task loop: a success counts as
updated; on failure the handler reads the page's Name title (line 474), so
a page without one re-raises out of the loop; otherwise the error is
recorded and the loop continues. -/
def taskNTLoop (env : SyncEnv) :
    List NotionPage → SyncResults → (SyncResults × List SyncEvent) × Option String
  | [], r => ((r, []), none)
  | t :: rest, r =>
    match env.syncTaskNT t with
    | .ok _ =>
      let next := taskNTLoop env rest { r with tasks_updated := r.tasks_updated + 1 }
      ((next.1.1, .syncTaskNT t.id :: next.1.2), next.2)
    | .error e =>
      match t.nameTitle with
      | some nm =>
        let next := taskNTLoop env rest
          { r with tasks_errors :=
              r.tasks_errors ++ ["N->T Task " ++ nm ++ ": " ++ e] }
        ((next.1.1, .syncTaskNT t.id :: next.1.2), next.2)
      | none => ((r, [.syncTaskNT t.id]), some "KeyError: Name")

/-- The `try` body of `sync_all` (lines 378-481): the phases in source
order, aborting to the `except` handler — which records the message under
the `error` key and keeps the partial `results` — whenever a fetch, the
status pass, or an error handler inside a loop raises. -/
def syncBody (env : SyncEnv) : SyncResults × List SyncEvent :=
  let r0 := SyncResults.init
  match env.todoistProjects with
  | .error e => ({ r0 with error := some e }, [.fetchTodoistProjects])
  | .ok tps =>
    match env.notionProjects1 with
    | .error e =>
      ({ r0 with error := some e }, [.fetchTodoistProjects, .fetchNotionProjects])
    | .ok nps =>
      let tr0 : List SyncEvent :=
        [.fetchTodoistProjects, .fetchNotionProjects, .fetchCategories]
      let s1 := projTNLoop env nps tps r0
      let r1 := s1.1
      let tr1 := tr0 ++ s1.2
      match env.notionProjects2 with
      | .error e => ({ r1 with error := some e }, tr1 ++ [.fetchNotionProjectsAgain])
      | .ok nps2 =>
        let tr2 := tr1 ++ [.fetchNotionProjectsAgain]
        let s2 := projNTLoop env nps2 r1
        let r2 := s2.1.1
        let tr3 := tr2 ++ s2.1.2
        match s2.2 with
        | some e => ({ r2 with error := some e }, tr3)
        | none =>
          match env.notionProjects3 with
          | .error e => ({ r2 with error := some e }, tr3 ++ [.fetchNotionProjectsFinal])
          | .ok nps3 =>
            let _maps := buildProjectMaps nps3
            let tr4 := tr3 ++ [.fetchNotionProjectsFinal]
            match env.todoistTasks with
            | .error e => ({ r2 with error := some e }, tr4 ++ [.fetchTodoistTasks])
            | .ok tts =>
              match env.notionTasks with
              | .error e =>
                ({ r2 with error := some e },
                 tr4 ++ [.fetchTodoistTasks, .fetchNotionTasks])
              | .ok nts =>
                match env.todoistLabels with
                | .error e =>
                  ({ r2 with error := some e },
                   tr4 ++ [.fetchTodoistTasks, .fetchNotionTasks, .fetchLabels])
                | .ok _labels =>
                  let tr5 := tr4 ++ [.fetchTodoistTasks, .fetchNotionTasks, .fetchLabels]
                  match env.statusSyncFails with
                  | some e => ({ r2 with error := some e }, tr5 ++ [.statusSyncPass])
                  | none =>
                    let su := (sync_task_completion_status tts
                      (env.completedTasks.map (fun t => t.id)) env.mappings nts).1
                    let r3 := { r2 with tasks_status_synced :=
                      su.todoist_to_notion + su.notion_to_todoist }
                    let tr6 := tr5 ++ [.statusSyncPass]
                    let s3 := taskTNLoop env (nts.map (fun t => t.id)) tts r3
                    let tr7 := tr6 ++ s3.2
                    let s4 := completedTNLoop env (env.completedTasks.take 50) s3.1
                    let tr8 := tr7 ++ s4.2
                    let s5 := taskNTLoop env nts s4.1
                    let r6 := s5.1.1
                    let tr9 := tr8 ++ s5.1.2
                    ((match s5.2 with
                      | some e => { r6 with error := some e }
                      | none => r6), tr9)

/-- Function `sync_all` (lines 369-486): run the `try` body, then — outside the
`try` — add one `sync_history` record and return `results`.  A failure of
that final Firestore `add` is not caught anywhere in `sync_all` and
propagates to the caller. -/
def sync_all (env : SyncEnv) : Except String SyncResults × List SyncEvent :=
  let body := syncBody env
  match env.historyWrite with
  | .ok _ => (.ok body.1, body.2 ++ [.writeHistory])
  | .error e => (.error e, body.2 ++ [.writeHistory])

/-! ### The control flow of `sync_all` as a transition system

For the concurrency claim we present the body of `sync_all` a second time,
as a small-step transition system: one step per vendor interaction.  A
`Mode` is a program point of the function body together with the loop
queue still to process; `Step env m e m'` says that from point `m` the
function performs `e` (at most one request) and continues at `m'`.  The
constructors are read off the source branch by branch. -/

/-- A program point of `sync_all`, with the data its continuation needs. -/
inductive Mode where
  | start
  | fetchedProjects (tps : List TodoistProject)
  | fetchedNotion (tps : List TodoistProject)
  | tnProjects (queue : List TodoistProject)
  | refetchNotion
  | ntProjects (queue : List NotionPage)
  | finalNotion
  | fetchTodoistTasksM
  | fetchNotionTasksM (tts : List TodoistTask)
  | fetchLabelsM (tts : List TodoistTask) (nts : List NotionPage)
  | statusPass (tts : List TodoistTask) (nts : List NotionPage)
  | tnTasksM (queue : List TodoistTask) (nts : List NotionPage)
  | completedPassM (queue : List TodoistTask) (nts : List NotionPage)
  | ntTasksM (queue : List NotionPage)
  | historyM
  | halted
deriving Repr, DecidableEq

/-- One step of `sync_all`: the function is at program point `m`, performs
at most one vendor interaction `e`, and moves to `m'`.  Fetch failures and
re-raising error handlers jump to the `sync_history` write (`historyM`),
exactly as the `try`/`except` at lines 378-484 does. -/
inductive Step (env : SyncEnv) : Mode → Option SyncEvent → Mode → Prop where
  | fetchTPOk (tps : List TodoistProject) (h : env.todoistProjects = .ok tps) :
      Step env .start (some .fetchTodoistProjects) (.fetchedProjects tps)
  | fetchTPErr (e : String) (h : env.todoistProjects = .error e) :
      Step env .start (some .fetchTodoistProjects) .historyM
  | fetchNPOk (tps : List TodoistProject) (nps : List NotionPage)
      (h : env.notionProjects1 = .ok nps) :
      Step env (.fetchedProjects tps) (some .fetchNotionProjects) (.fetchedNotion tps)
  | fetchNPErr (tps : List TodoistProject) (e : String)
      (h : env.notionProjects1 = .error e) :
      Step env (.fetchedProjects tps) (some .fetchNotionProjects) .historyM
  | fetchCat (tps : List TodoistProject) :
      Step env (.fetchedNotion tps) (some .fetchCategories) (.tnProjects tps)
  | tnStep (p : TodoistProject) (rest : List TodoistProject) :
      Step env (.tnProjects (p :: rest)) (some (.syncProjectTN p.name)) (.tnProjects rest)
  | tnDone : Step env (.tnProjects []) none .refetchNotion
  | refetchOk (nps2 : List NotionPage) (h : env.notionProjects2 = .ok nps2) :
      Step env .refetchNotion (some .fetchNotionProjectsAgain) (.ntProjects nps2)
  | refetchErr (e : String) (h : env.notionProjects2 = .error e) :
      Step env .refetchNotion (some .fetchNotionProjectsAgain) .historyM
  | ntSkip (p : NotionPage) (rest : List NotionPage)
      (h : p.sourceName = some "Todoist") :
      Step env (.ntProjects (p :: rest)) none (.ntProjects rest)
  | ntStepOk (p : NotionPage) (rest : List NotionPage) (u : Unit)
      (h : p.sourceName ≠ some "Todoist") (hok : env.syncProjNT p = .ok u) :
      Step env (.ntProjects (p :: rest)) (some (.syncProjectNT p.id)) (.ntProjects rest)
  | ntStepErrHandled (p : NotionPage) (rest : List NotionPage) (e nm : String)
      (h : p.sourceName ≠ some "Todoist") (herr : env.syncProjNT p = .error e)
      (hnm : p.nameTitle = some nm) :
      Step env (.ntProjects (p :: rest)) (some (.syncProjectNT p.id)) (.ntProjects rest)
  | ntStepAbort (p : NotionPage) (rest : List NotionPage) (e : String)
      (h : p.sourceName ≠ some "Todoist") (herr : env.syncProjNT p = .error e)
      (hnm : p.nameTitle = none) :
      Step env (.ntProjects (p :: rest)) (some (.syncProjectNT p.id)) .historyM
  | ntDone : Step env (.ntProjects []) none .finalNotion
  | finalOk (nps3 : List NotionPage) (h : env.notionProjects3 = .ok nps3) :
      Step env .finalNotion (some .fetchNotionProjectsFinal) .fetchTodoistTasksM
  | finalErr (e : String) (h : env.notionProjects3 = .error e) :
      Step env .finalNotion (some .fetchNotionProjectsFinal) .historyM
  | fetchTTOk (tts : List TodoistTask) (h : env.todoistTasks = .ok tts) :
      Step env .fetchTodoistTasksM (some .fetchTodoistTasks) (.fetchNotionTasksM tts)
  | fetchTTErr (e : String) (h : env.todoistTasks = .error e) :
      Step env .fetchTodoistTasksM (some .fetchTodoistTasks) .historyM
  | fetchNTOk (tts : List TodoistTask) (nts : List NotionPage)
      (h : env.notionTasks = .ok nts) :
      Step env (.fetchNotionTasksM tts) (some .fetchNotionTasks) (.fetchLabelsM tts nts)
  | fetchNTErr (tts : List TodoistTask) (e : String)
      (h : env.notionTasks = .error e) :
      Step env (.fetchNotionTasksM tts) (some .fetchNotionTasks) .historyM
  | fetchLabOk (tts : List TodoistTask) (nts : List NotionPage)
      (ls : List (String × String)) (h : env.todoistLabels = .ok ls) :
      Step env (.fetchLabelsM tts nts) (some .fetchLabels) (.statusPass tts nts)
  | fetchLabErr (tts : List TodoistTask) (nts : List NotionPage) (e : String)
      (h : env.todoistLabels = .error e) :
      Step env (.fetchLabelsM tts nts) (some .fetchLabels) .historyM
  | statusOk (tts : List TodoistTask) (nts : List NotionPage)
      (h : env.statusSyncFails = none) :
      Step env (.statusPass tts nts) (some .statusSyncPass) (.tnTasksM tts nts)
  | statusErr (tts : List TodoistTask) (nts : List NotionPage) (e : String)
      (h : env.statusSyncFails = some e) :
      Step env (.statusPass tts nts) (some .statusSyncPass) .historyM
  | tnTaskStep (t : TodoistTask) (rest : List TodoistTask) (nts : List NotionPage) :
      Step env (.tnTasksM (t :: rest) nts) (some (.syncTaskTN t.id)) (.tnTasksM rest nts)
  | tnTasksDone (nts : List NotionPage) :
      Step env (.tnTasksM [] nts) none (.completedPassM (env.completedTasks.take 50) nts)
  | compStep (t : TodoistTask) (rest : List TodoistTask) (nts : List NotionPage) :
      Step env (.completedPassM (t :: rest) nts) (some (.syncCompletedTN t.id))
        (.completedPassM rest nts)
  | compDone (nts : List NotionPage) :
      Step env (.completedPassM [] nts) none (.ntTasksM nts)
  | ntTaskStepOk (t : NotionPage) (rest : List NotionPage) (u : Unit)
      (hok : env.syncTaskNT t = .ok u) :
      Step env (.ntTasksM (t :: rest)) (some (.syncTaskNT t.id)) (.ntTasksM rest)
  | ntTaskStepErrHandled (t : NotionPage) (rest : List NotionPage) (e nm : String)
      (herr : env.syncTaskNT t = .error e) (hnm : t.nameTitle = some nm) :
      Step env (.ntTasksM (t :: rest)) (some (.syncTaskNT t.id)) (.ntTasksM rest)
  | ntTaskAbort (t : NotionPage) (rest : List NotionPage) (e : String)
      (herr : env.syncTaskNT t = .error e) (hnm : t.nameTitle = none) :
      Step env (.ntTasksM (t :: rest)) (some (.syncTaskNT t.id)) .historyM
  | ntTasksDone : Step env (.ntTasksM []) none .historyM
  | historyStep : Step env .historyM (some .writeHistory) .halted


/-! ### `resolve_date` and `parse_instructions` -/

/-- Modelled from the spec: the latest draft's natural-language date
resolver `resolve_date` is not among the source files (only this cleaned
sync draft is); per the spec it is "a few-branch string-matching utility".
It maps the recognized phrases to a day offset from `today` (days as
ordinals) and rejects everything else. -/
def resolve_date (today : Nat) (s : String) : Option Nat :=
  if s = "today" then some today
  else if s = "tomorrow" then some (today + 1)
  else if s = "next week" then some (today + 7)
  else none

/-- A parsed batch-update instruction of the latest draft. -/
inductive Instruction where
  | completeTask (task : String)
  | rescheduleTask (task : String)
  | unknown (raw : String)
deriving Repr, DecidableEq

/-- Modelled from the spec: one instruction of `parse_instructions` is
classified by matching a small fixed set of leading keywords; anything
else is passed through unrecognized. -/
def parse_instruction_line (line : String) : Instruction :=
  if line.startsWith "complete " then .completeTask (line.drop 9)
  else if line.startsWith "reschedule " then .rescheduleTask (line.drop 11)
  else .unknown line

/-- Modelled from the spec: `parse_instructions`, the instruction parser
for batch task updates, absent from the source files; per the spec it is a
few-branch string-matching utility.  It splits the input on `";"`, trims,
drops empty pieces and classifies each piece by keyword. -/
def parse_instructions (s : String) : List Instruction :=
  (((s.splitOn ";").map (fun piece => piece.trim)).filter
    (fun piece => piece != "")).map parse_instruction_line

/-! ### `get_sync_history` (src/main.py lines 526-541) -/

/-- A document of the Firestore `sync_history` collection, keyed for the
query by its `timestamp` field. -/
structure SyncHistoryDoc where
  timestamp : Nat
  payload : String
deriving Repr, DecidableEq

/-- The Firestore query of line 536: `order_by('timestamp', DESCENDING)` —
sort the collection newest first. -/
def historyByNewest (docs : List SyncHistoryDoc) : List SyncHistoryDoc :=
  List.insertionSort (fun a b => b.timestamp ≤ a.timestamp) docs

/-- The HTTP response of `get_sync_history`: status code and, on success,
the returned history list. -/
structure HistoryResponse where
  status : Nat
  history : Option (List SyncHistoryDoc)
deriving Repr, DecidableEq

/-- Function `get_sync_history` (lines 526-541): OPTIONS gets 204; otherwise the
`sync_history` collection is queried newest-first limited to 10 and
returned with status 200, and any failure (the `store` being unreadable)
yields the error payload with status 500. -/
def get_sync_history (method : String)
    (store : Except String (List SyncHistoryDoc)) : HistoryResponse :=
  if method = "OPTIONS" then { status := 204, history := none }
  else
    match store with
    | .ok docs => { status := 200, history := some ((historyByNewest docs).take 10) }
    | .error _ => { status := 500, history := none }

/-! ### Sample data for closed witnesses -/

/-- A sample Todoist project. -/
def sampleProject : TodoistProject :=
  { id := "100", name := "Home Renovation", parentId := none, isArchived := false }

/-- A sample Notion project page whose Name title matches
`sampleProject`. -/
def samplePage : NotionPage :=
  { id := "page-1", nameTitle := some "Home Renovation", sourceName := none
    statusName := some "In Progress", todoistIdProp := some "100"
    todoistUrl := none, doneCheckbox := false, dueDate := none
    projectRelation := [], typeSelect := none }

/-- A sample Notion task page. -/
def sampleTaskPage : NotionPage :=
  { id := "task-page-1", nameTitle := some "Buy paint", sourceName := none
    statusName := none, todoistIdProp := some "900", todoistUrl := none
    doneCheckbox := true, dueDate := none, projectRelation := [], typeSelect := none }

/-- A sample Todoist task. -/
def sampleTask : TodoistTask :=
  { id := "900", content := "Buy paint", isCompleted := false, due := none
    projectId := none, labels := [] }

/-- A sample `task_mappings` document linking `sampleTask` to
`sampleTaskPage`. -/
def sampleMapping : TaskMapping :=
  { docId := "900", todoistId := some "900", notionId := some "task-page-1" }

/-- A sample per-call environment for `create_or_update_todoist_task` in
which the existence check fails with a 404. -/
def sampleTaskEnv : TodoistTaskEnv :=
  { checkStatus := 404, checkCompleted := false, updateOk := true
    closeReopenOk := true, createOk := true, closeNewOk := true
    newTaskId := "901", newLabelId := "L1", labelCreateOk := true }

/-- A `sync_all` environment in which every vendor interaction succeeds
with empty collections. -/
def envAllOk : SyncEnv :=
  { todoistProjects := .ok [], notionProjects1 := .ok [], categories := []
    syncProjTN := fun _ => .ok "", notionProjects2 := .ok []
    syncProjNT := fun _ => .ok (), notionProjects3 := .ok []
    todoistTasks := .ok [], notionTasks := .ok [], todoistLabels := .ok []
    completedTasks := [], mappings := [], statusSyncFails := none
    syncTaskTN := fun _ => .ok "", syncCompletedTN := fun _ => .ok ()
    syncTaskNT := fun _ => .ok (), historyWrite := .ok () }

/-- A `sync_all` environment identical to `envAllOk` except that the final
`sync_history` Firestore `add` fails. -/
def envHistoryFail : SyncEnv :=
  { envAllOk with historyWrite := .error "ServiceUnavailable: firestore" }

/-- The page `sampleTaskPage` with the `Done` checkbox cleared, so that its status
disagrees with the completed Todoist task `sampleTask`. -/
def sampleTaskPageUndone : NotionPage :=
  { sampleTaskPage with doneCheckbox := false }

/-- A trace slice whose event phases are nondecreasing and lie between
`lo` and `hi`: the shape of (a slice of) a `sync_all` trace that respects
the source order of the phases. -/
def PhasedLe (tr : List SyncEvent) (lo hi : Nat) : Prop :=
  ((tr.map SyncEvent.phase).Pairwise (fun a b => a ≤ b))
  ∧ ∀ e ∈ tr, lo ≤ e.phase ∧ e.phase ≤ hi

/-- Phase shapes of concrete traces can be checked by evaluation. -/
instance (tr : List SyncEvent) (lo hi : Nat) : Decidable (PhasedLe tr lo hi) := by
  unfold PhasedLe
  infer_instance

/-- Newest-first document order is total. -/
instance : IsTotal SyncHistoryDoc (fun a b => b.timestamp ≤ a.timestamp) :=
  ⟨fun a b => le_total b.timestamp a.timestamp⟩

/-- Newest-first document order is transitive. -/
instance : IsTrans SyncHistoryDoc (fun a b => b.timestamp ≤ a.timestamp) :=
  ⟨fun _ _ _ hab hbc => le_trans hbc hab⟩

/-! ## Theorems -/

/-- The update-versus-create decision of `create_or_update_notion_project`
is exactly the presence of a name-matching page. -/
theorem isPatch_create_or_update_notion_project (proj : TodoistProject)
    (existing : List NotionPage) (allTodoist : List TodoistProject)
    (categoryMap : List (String × String)) :
    (create_or_update_notion_project proj existing allTodoist categoryMap).isPatch
      = (existing.find? (fun page => page.nameTitle == some proj.name)).isSome := by
  unfold create_or_update_notion_project findExistingProjectPage
  rcases h : existing.find? (fun page => page.nameTitle == some proj.name) with _ | page <;>
    simp [h, NotionWrite.isPatch]

/-- Claim C1: `create_or_update_notion_project` PATCHes an existing Notion
page if and only if some page of `existing_projects` has a Name title whose
text content is literally string-equal to the Todoist project's name
(otherwise it POSTs a new page), and `create_or_update_todoist_project`
reuses an existing Todoist project if and only if some project of
`todoist_projects` has a name literally string-equal to the page's Name
title (otherwise it creates a new one).  The matching is plain `==` string
equality with no normalization. -/
theorem projects_matched_by_exact_name_equality (proj : TodoistProject)
    (existing : List NotionPage) (allTodoist : List TodoistProject)
    (categoryMap : List (String × String)) (npage : NotionPage)
    (tprojects : List TodoistProject) (nm : String)
    (hname : npage.nameTitle = some nm) :
    ((create_or_update_notion_project proj existing allTodoist categoryMap).isPatch = true
      ↔ ∃ page ∈ existing, page.nameTitle = some proj.name)
    ∧ (∃ act, create_or_update_todoist_project npage tprojects = .ok act
        ∧ (act.isReuse = true ↔ ∃ p ∈ tprojects, p.name = nm)) := by
  constructor
  · rw [isPatch_create_or_update_notion_project, List.find?_isSome]
    simp
  · unfold create_or_update_todoist_project
    rw [hname]
    rcases h : tprojects.find? (fun p => p.name == nm) with _ | p
    · simp only [h]
      refine ⟨_, rfl, ?_⟩
      simp [TodoistProjectAction.isReuse]
      intro x hx
      have hx2 := List.find?_eq_none.mp h x hx
      simpa using hx2
    · simp only [h]
      refine ⟨_, rfl, ?_⟩
      simp [TodoistProjectAction.isReuse]
      exact ⟨p, List.mem_of_find?_eq_some h, by simpa using List.find?_some h⟩

/-- Closed witness for `projects_matched_by_exact_name_equality` at the
sample project and page. -/
theorem projects_matched_by_exact_name_equality_witness :
    ((create_or_update_notion_project sampleProject [samplePage] [sampleProject] []).isPatch = true
      ↔ ∃ page ∈ [samplePage], page.nameTitle = some sampleProject.name)
    ∧ (∃ act, create_or_update_todoist_project samplePage [sampleProject] = .ok act
        ∧ (act.isReuse = true ↔ ∃ p ∈ [sampleProject], p.name = "Home Renovation")) :=
  projects_matched_by_exact_name_equality sampleProject [samplePage] [sampleProject] []
    samplePage [sampleProject] "Home Renovation" rfl

/-- Claim C3: the latest draft's `resolve_date` and `parse_instructions`
(modelled from the spec, the draft defining them being absent from the
source files) are few-branch string-matching utilities: `resolve_date`
recognizes exactly its fixed phrase list, and `parse_instruction_line`
leaves a line unclassified exactly when it starts with none of the fixed
keywords. -/
theorem resolver_and_instruction_utilities_are_string_matchers :
    (∀ d s, (resolve_date d s).isSome = true
      ↔ (s = "today" ∨ s = "tomorrow" ∨ s = "next week"))
    ∧ (∀ line, parse_instruction_line line = .unknown line
      ↔ (line.startsWith "complete " = false ∧ line.startsWith "reschedule " = false)) := by
  constructor
  · intro d s
    unfold resolve_date
    by_cases h1 : s = "today" <;> by_cases h2 : s = "tomorrow" <;>
      by_cases h3 : s = "next week" <;> simp [h1, h2, h3]
  · intro line
    unfold parse_instruction_line
    rcases h1 : line.startsWith "complete " <;> rcases h2 : line.startsWith "reschedule " <;>
      simp [h1, h2]

/-- Closed witness for
`resolver_and_instruction_utilities_are_string_matchers`. -/
theorem resolver_and_instruction_utilities_witness :
    (resolve_date 0 "tomorrow").isSome = true :=
  (resolver_and_instruction_utilities_are_string_matchers.1 0 "tomorrow").mpr
    (Or.inr (Or.inl rfl))

/-- One pass of the mapping loop appends exactly `statusWritesFor` of the
processed document to the write trace. -/
theorem statusFoldStep_snd (sm : List (String × Bool)) (nts : List NotionPage)
    (acc : StatusUpdates × List StatusWrite) (m : TaskMapping) :
    (statusFoldStep sm nts acc m).2 = acc.2 ++ statusWritesFor sm nts m := by
  unfold statusFoldStep statusWritesFor
  rcases truthyStr m.todoistId with _ | tid <;> rcases truthyStr m.notionId with _ | nid <;>
    try simp
  rcases h2 : nts.find? (fun t => t.id == nid) with _ | ntask <;> simp [h2]
  rcases hls : lookupStatus sm tid <;> rcases hd : ntask.doneCheckbox <;> simp [hls, hd]

/-- One pass of the mapping loop never touches the `notion_to_todoist`
counter. -/
theorem statusFoldStep_n2t (sm : List (String × Bool)) (nts : List NotionPage)
    (acc : StatusUpdates × List StatusWrite) (m : TaskMapping) :
    (statusFoldStep sm nts acc m).1.notion_to_todoist = acc.1.notion_to_todoist := by
  unfold statusFoldStep
  rcases truthyStr m.todoistId with _ | tid <;> rcases truthyStr m.notionId with _ | nid <;>
    try simp
  rcases h2 : nts.find? (fun t => t.id == nid) with _ | ntask <;> simp [h2]
  rcases hls : lookupStatus sm tid <;> rcases hd : ntask.doneCheckbox <;> simp [hls, hd]

/-- The write trace of the whole mapping loop is the concatenation of the
per-document writes. -/
theorem statusFold_events_eq (sm : List (String × Bool)) (nts : List NotionPage)
    (ms : List TaskMapping) :
    ∀ acc : StatusUpdates × List StatusWrite,
      (ms.foldl (statusFoldStep sm nts) acc).2
        = acc.2 ++ ms.flatMap (statusWritesFor sm nts) := by
  induction ms with
  | nil => intro acc; simp
  | cons m rest ih =>
    intro acc
    rw [List.foldl_cons, List.flatMap_cons, ih, statusFoldStep_snd, List.append_assoc]

/-- The `notion_to_todoist` counter survives the whole mapping loop
unchanged. -/
theorem statusFold_n2t (sm : List (String × Bool)) (nts : List NotionPage)
    (ms : List TaskMapping) :
    ∀ acc : StatusUpdates × List StatusWrite,
      (ms.foldl (statusFoldStep sm nts) acc).1.notion_to_todoist
        = acc.1.notion_to_todoist := by
  induction ms with
  | nil => intro acc; simp
  | cons m rest ih =>
    intro acc
    rw [List.foldl_cons, ih, statusFoldStep_n2t]

/-- Every write a single document can produce sets a `Done` checkbox to
`True`. -/
theorem mem_statusWritesFor (sm : List (String × Bool)) (nts : List NotionPage)
    (m : TaskMapping) (w : StatusWrite) (hw : w ∈ statusWritesFor sm nts m) :
    ∃ nid, w = .patchDone nid true := by
  unfold statusWritesFor at hw
  rcases ht : truthyStr m.todoistId with _ | tid <;>
    rcases hn : truthyStr m.notionId with _ | nid <;>
    rw [ht, hn] at hw <;> try simp at hw
  rcases h2 : nts.find? (fun t => t.id == nid) with _ | ntask <;> rw [h2] at hw <;>
    try simp at hw
  rcases hls : lookupStatus sm tid <;> rcases hd : ntask.doneCheckbox <;>
    simp [hls, hd] at hw
  exact ⟨nid, hw⟩

/-- Claim C8: `sync_task_completion_status` always returns a
`notion_to_todoist` count of `0`, and every write it issues is a
Todoist-to-Notion one (a `Done := True` PATCH); the branch for a task
complete in Notion but incomplete in Todoist performs no write. -/
theorem status_sync_never_writes_notion_to_todoist (tts : List TodoistTask)
    (completedIds : List String) (mappings : List TaskMapping)
    (nts : List NotionPage) :
    (sync_task_completion_status tts completedIds mappings nts).1.notion_to_todoist = 0
    ∧ ∀ w ∈ (sync_task_completion_status tts completedIds mappings nts).2,
        ∃ nid, w = .patchDone nid true := by
  constructor
  · rw [sync_task_completion_status, statusFold_n2t]
  · intro w hw
    rw [sync_task_completion_status, statusFold_events_eq] at hw
    simp only [List.nil_append, List.mem_flatMap] at hw
    obtain ⟨m, _, hw⟩ := hw
    exact mem_statusWritesFor _ _ _ _ hw

/-- Closed witness for `status_sync_never_writes_notion_to_todoist`. -/
theorem status_sync_never_writes_notion_to_todoist_witness :
    (sync_task_completion_status [sampleTask] ["900"] [sampleMapping]
      [sampleTaskPageUndone]).1.notion_to_todoist = 0 :=
  (status_sync_never_writes_notion_to_todoist [sampleTask] ["900"] [sampleMapping]
    [sampleTaskPageUndone]).1

/-- Claim C10: for every non-OPTIONS request, `get_sync_history` returns at
most the 10 most recent sync-history records, newest first, with HTTP
status 200; on failure it returns status 500. -/
theorem history_returns_ten_newest (method : String)
    (store : Except String (List SyncHistoryDoc)) (h : method ≠ "OPTIONS") :
    (∀ docs, store = .ok docs →
      (get_sync_history method store).status = 200
      ∧ (get_sync_history method store).history = some ((historyByNewest docs).take 10)
      ∧ ((historyByNewest docs).take 10).length ≤ 10
      ∧ ((historyByNewest docs).take 10).Sorted (fun a b => b.timestamp ≤ a.timestamp)
      ∧ ∀ d ∈ (historyByNewest docs).take 10, ∀ e ∈ (historyByNewest docs).drop 10,
          e.timestamp ≤ d.timestamp)
    ∧ (∀ err, store = .error err → (get_sync_history method store).status = 500) := by
  have hsorted : ∀ docs : List SyncHistoryDoc,
      (historyByNewest docs).Sorted (fun a b => b.timestamp ≤ a.timestamp) := by
    intro docs
    exact List.sorted_insertionSort _ docs
  constructor
  · intro docs hdocs
    subst hdocs
    refine ⟨?_, ?_, ?_, ?_, ?_⟩
    · simp [get_sync_history, h]
    · simp [get_sync_history, h]
    · rw [List.length_take]
      exact min_le_left _ _
    · exact List.Pairwise.sublist (List.take_sublist _ _) (hsorted docs)
    · intro d hd e he
      have hfull : List.Pairwise (fun a b => b.timestamp ≤ a.timestamp)
          (List.take 10 (historyByNewest docs) ++ List.drop 10 (historyByNewest docs)) := by
        rw [List.take_append_drop]
        exact hsorted docs
      exact (List.pairwise_append.mp hfull).2.2 d hd e he
  · intro err herr
    subst herr
    simp [get_sync_history, h]

/-- Closed witness for `history_returns_ten_newest` at a three-document
store. -/
theorem history_returns_ten_newest_witness :
    (get_sync_history "GET" (.ok [⟨5, "a"⟩, ⟨9, "b"⟩, ⟨7, "c"⟩])).status = 200 :=
  ((history_returns_ten_newest "GET" (.ok [⟨5, "a"⟩, ⟨9, "b"⟩, ⟨7, "c"⟩])
    (by decide)).1 _ rfl).1

/-- A document `set` always leaves the written document in the
collection. -/
theorem self_mem_setMappingDoc (ms : List TaskMapping) (m : TaskMapping) :
    m ∈ setMappingDoc ms m := by
  induction ms with
  | nil => simp [setMappingDoc]
  | cons m0 rest ih =>
    unfold setMappingDoc
    by_cases h : (m0.docId == m.docId) = true <;> simp [h, ih]

/-- The update-versus-create decision of `create_or_update_notion_task` is
exactly the presence of a cached page id. -/
theorem isPatch_create_or_update_notion_task (task : TodoistTask)
    (mappings : List TaskMapping) (pm lm : List (String × String)) (ic : Bool)
    (npid : String) :
    (create_or_update_notion_task task mappings pm lm ic npid).1.isPatch
      = (cachedNotionPageId mappings task.id).isSome := by
  unfold create_or_update_notion_task
  rcases h : cachedNotionPageId mappings task.id with _ | pid <;>
    simp [h, NotionTaskWrite.isPatch]

/-- A cached page id exists exactly when some mapping document keyed by the
task's id carries a truthy `notion_id` (document ids are unique in a
Firestore collection). -/
theorem cachedNotionPageId_isSome_iff (mappings : List TaskMapping) (d : String)
    (hnodup : (mappings.map (fun m => m.docId)).Nodup) :
    (cachedNotionPageId mappings d).isSome = true
      ↔ ∃ m ∈ mappings, m.docId = d ∧ truthyStr m.notionId ≠ none := by
  unfold cachedNotionPageId findMappingDoc
  rcases h : mappings.find? (fun m => m.docId == d) with _ | m <;> rw [h]
  · simp only [Option.isSome_none, Bool.false_eq_true, false_iff]
    rintro ⟨m, hm, hd, -⟩
    have := List.find?_eq_none.mp h m hm
    simp [hd] at this
  · constructor
    · intro hs
      refine ⟨m, List.mem_of_find?_eq_some h, ?_, ?_⟩
      · have := List.find?_some h
        simpa using this
      · exact Option.isSome_iff_ne_none.mp hs
    · rintro ⟨m', hm', hd', hn'⟩
      have hmem := List.mem_of_find?_eq_some h
      have hmd : m.docId = d := by simpa using List.find?_some h
      have : m' = m := List.inj_on_of_nodup_map hnodup hm' hmem (by rw [hd', hmd])
      subst this
      exact Option.isSome_iff_ne_none.mpr hn'

/-- When `create_or_update_notion_task` creates a page, the resulting
collection contains the mapping document holding both external ids. -/
theorem create_or_update_notion_task_writes_mapping (task : TodoistTask)
    (mappings : List TaskMapping) (pm lm : List (String × String)) (ic : Bool)
    (npid : String)
    (h : (create_or_update_notion_task task mappings pm lm ic npid).1.isPatch = false) :
    ({ docId := task.id, todoistId := some task.id, notionId := some npid } :
        TaskMapping)
      ∈ (create_or_update_notion_task task mappings pm lm ic npid).2 := by
  unfold create_or_update_notion_task at h ⊢
  rcases hc : cachedNotionPageId mappings task.id with _ | pid
  · simp only [hc]
    exact self_mem_setMappingDoc _ _
  · rw [hc] at h
    simp [NotionTaskWrite.isPatch] at h

/-- The create branch never reports an update outcome. -/
theorem todoistTaskCreatePath_no_update (npage : NotionPage)
    (mappings : List TaskMapping) (env : TodoistTaskEnv) (isDone : Bool)
    (reqs : List TaskReq) (tid : String) (c rp : Bool) :
    (todoistTaskCreatePath npage mappings env isDone reqs).outcome
      ≠ .ok (.updatedTask tid c rp) := by
  unfold todoistTaskCreatePath
  rcases hco : env.createOk <;> rcases hd : isDone <;> rcases hcn : env.closeNewOk <;>
    simp [hco, hd, hcn]

/-- A create-branch success leaves the two-sided mapping document in the
collection. -/
theorem todoistTaskCreatePath_created (npage : NotionPage)
    (mappings : List TaskMapping) (env : TodoistTaskEnv) (isDone : Bool)
    (reqs : List TaskReq) (nid : String) (c : Bool)
    (h : (todoistTaskCreatePath npage mappings env isDone reqs).outcome
      = .ok (.createdTask nid c)) :
    ({ docId := nid, todoistId := some nid, notionId := some npage.id } :
        TaskMapping)
      ∈ (todoistTaskCreatePath npage mappings env isDone reqs).mappings := by
  unfold todoistTaskCreatePath at h ⊢
  rcases hco : env.createOk <;> rcases hd : isDone <;> rcases hcn : env.closeNewOk <;>
    simp only [hco, hd, hcn, Bool.false_eq_true, Bool.true_eq_false, if_true, if_false,
      reduceIte] at h ⊢ <;>
    try simp at h
  all_goals
    obtain ⟨h1, h2⟩ := h
  all_goals
    subst h1
  all_goals
    exact self_mem_setMappingDoc _ _

/-- An update outcome of the update-or-create branch carries exactly the
resolved Todoist id. -/
theorem todoistTaskSyncCore_updated (npage : NotionPage)
    (mappings : List TaskMapping) (env : TodoistTaskEnv) (isDone : Bool)
    (pre : List TaskReq) (tid : String) (c rp : Bool)
    (h : (todoistTaskSyncCore npage mappings env isDone pre).outcome
      = .ok (.updatedTask tid c rp)) :
    resolveTodoistId npage mappings = some tid := by
  unfold todoistTaskSyncCore at h
  rcases hr : resolveTodoistId npage mappings with _ | tid' <;> rw [hr] at h
  · exact absurd h (todoistTaskCreatePath_no_update _ _ _ _ _ _ _ _)
  · rcases hcs : (env.checkStatus == 200) <;> rcases hu : env.updateOk <;>
      rcases h1 : (isDone && !env.checkCompleted) <;>
      rcases h2 : (!isDone && env.checkCompleted) <;>
      rcases h3 : env.closeReopenOk <;>
      (try simp only [hcs, hu, h1, h2, h3, Bool.false_eq_true, Bool.true_eq_false,
        if_true, if_false, reduceIte] at h) <;>
      first
        | exact absurd h (todoistTaskCreatePath_no_update _ _ _ _ _ _ _ _)
        | (simp at h; simp [h.1])

/-- A create outcome of the update-or-create branch leaves the two-sided
mapping document in the collection. -/
theorem todoistTaskSyncCore_created (npage : NotionPage)
    (mappings : List TaskMapping) (env : TodoistTaskEnv) (isDone : Bool)
    (pre : List TaskReq) (nid : String) (c : Bool)
    (h : (todoistTaskSyncCore npage mappings env isDone pre).outcome
      = .ok (.createdTask nid c)) :
    ({ docId := nid, todoistId := some nid, notionId := some npage.id } :
        TaskMapping)
      ∈ (todoistTaskSyncCore npage mappings env isDone pre).mappings := by
  unfold todoistTaskSyncCore at h ⊢
  rcases hr : resolveTodoistId npage mappings with _ | tid' <;> rw [hr] at h
  · exact todoistTaskCreatePath_created _ _ _ _ _ _ _ h
  · rcases hcs : (env.checkStatus == 200) <;> rcases hu : env.updateOk <;>
      rcases h1 : (isDone && !env.checkCompleted) <;>
      rcases h2 : (!isDone && env.checkCompleted) <;>
      rcases h3 : env.closeReopenOk <;>
      (try simp only [hcs, hu, h1, h2, h3, Bool.false_eq_true, Bool.true_eq_false,
        if_true, if_false, reduceIte] at h ⊢) <;>
      first
        | exact todoistTaskCreatePath_created _ _ _ _ _ _ _ h
        | simp at h

/-- Claim C2: the `task_mappings` store is used purely as a lookup cache of
external-id pairs.  `create_or_update_notion_task` PATCHes the existing
Notion page if and only if a mapping document keyed by the Todoist task's
id exists and carries a (truthy) `notion_id`; otherwise it POSTs a new
page and then writes the mapping document holding both external ids.
`create_or_update_todoist_task` resolves the reverse direction — the
mapping found by `notion_id`, falling back to the page's `Todoist ID`
property — to decide update versus create: an update outcome always
carries the id this lookup resolved, and after each create the collection
holds a mapping document with both external ids. -/
theorem task_mapping_store_is_lookup_cache (task : TodoistTask)
    (mappings : List TaskMapping) (pm lm : List (String × String)) (ic : Bool)
    (npid : String) (npage : NotionPage) (mappings2 : List TaskMapping)
    (labels : List (String × String)) (env : TodoistTaskEnv)
    (hnodup : (mappings.map (fun m => m.docId)).Nodup) :
    ((create_or_update_notion_task task mappings pm lm ic npid).1.isPatch = true
      ↔ ∃ m ∈ mappings, m.docId = task.id ∧ truthyStr m.notionId ≠ none)
    ∧ ((create_or_update_notion_task task mappings pm lm ic npid).1.isPatch = false →
        ({ docId := task.id, todoistId := some task.id, notionId := some npid } :
            TaskMapping)
          ∈ (create_or_update_notion_task task mappings pm lm ic npid).2)
    ∧ (∀ tid c rp, (create_or_update_todoist_task npage mappings2 labels env).outcome
          = .ok (.updatedTask tid c rp) → resolveTodoistId npage mappings2 = some tid)
    ∧ (∀ nid c, (create_or_update_todoist_task npage mappings2 labels env).outcome
          = .ok (.createdTask nid c) →
        ({ docId := nid, todoistId := some nid, notionId := some npage.id } :
            TaskMapping)
          ∈ (create_or_update_todoist_task npage mappings2 labels env).mappings) := by
  have hlift : ∀ (P : TodoistTaskResult → Prop),
      (∀ isDone pre, P (todoistTaskSyncCore npage mappings2 env isDone pre)) →
      (∀ e ms rs, P { outcome := .error e, mappings := ms, reqs := rs }) →
      P (create_or_update_todoist_task npage mappings2 labels env) := by
    intro P hcore herr
    unfold create_or_update_todoist_task
    rcases npage.nameTitle with _ | nm
    · exact herr _ _ _
    · rcases npage.typeSelect with _ | ty
      · exact hcore _ _
      · rcases hl : (get_or_create_label ty labels env.newLabelId env.labelCreateOk).1 with e | lid
        · simp only [hl, Except.map_error]
          exact herr _ _ _
        · simp only [hl, Except.map_ok]
          exact hcore _ _
  refine ⟨?_, ?_, ?_, ?_⟩
  · rw [isPatch_create_or_update_notion_task]
    exact cachedNotionPageId_isSome_iff mappings task.id hnodup
  · exact create_or_update_notion_task_writes_mapping task mappings pm lm ic npid
  · intro tid c rp
    refine hlift (fun r => r.outcome = .ok (.updatedTask tid c rp) →
      resolveTodoistId npage mappings2 = some tid) ?_ ?_
    · intro isDone pre h
      exact todoistTaskSyncCore_updated _ _ _ _ _ _ _ _ h
    · intro e ms rs h
      simp at h
  · intro nid c
    refine hlift (fun r => r.outcome = .ok (.createdTask nid c) →
      ({ docId := nid, todoistId := some nid, notionId := some npage.id } :
        TaskMapping) ∈ r.mappings) ?_ ?_
    · intro isDone pre h
      exact todoistTaskSyncCore_created _ _ _ _ _ _ _ h
    · intro e ms rs h
      simp at h

/-- Closed witness for `task_mapping_store_is_lookup_cache`: the sample
mapping makes the notion-side write a PATCH. -/
theorem task_mapping_store_is_lookup_cache_witness :
    (create_or_update_notion_task sampleTask [sampleMapping] [] [] false
      "new-page").1.isPatch = true :=
  (task_mapping_store_is_lookup_cache sampleTask [sampleMapping] [] [] false
    "new-page" sampleTaskPage [sampleMapping] [] sampleTaskEnv (by decide)).1.mpr
    ⟨sampleMapping, by decide⟩

/-- Claim C4: conflict resolution is last write wins with no merging and no
timestamp consultation.  For a mapped task whose completion status differs
with the Todoist side completed, `sync_task_completion_status` writes the
Todoist status over the Notion `Done` checkbox; every checkbox value it
ever writes is the Todoist-side status (`True`); and the `Done` value that
`create_or_update_notion_task` writes is always the Todoist task's own
completion flag, whatever the mapping store or the Notion side holds. -/
theorem completion_conflict_resolved_by_overwrite (tts : List TodoistTask)
    (completedIds : List String) (mappings : List TaskMapping)
    (nts : List NotionPage) (m : TaskMapping) (tid nid : String)
    (ntask : NotionPage) (hm : m ∈ mappings)
    (htid : truthyStr m.todoistId = some tid)
    (hnid : truthyStr m.notionId = some nid)
    (hfind : nts.find? (fun t => t.id == nid) = some ntask)
    (hdiff : ntask.doneCheckbox = false)
    (hcomp : lookupStatus (todoistStatusMap tts completedIds) tid = true) :
    StatusWrite.patchDone nid true
        ∈ (sync_task_completion_status tts completedIds mappings nts).2
    ∧ (∀ w ∈ (sync_task_completion_status tts completedIds mappings nts).2,
        ∃ i, w = StatusWrite.patchDone i true)
    ∧ (∀ (task : TodoistTask) (ms : List TaskMapping)
        (pm lm : List (String × String)) (ic : Bool) (npid : String),
        ((create_or_update_notion_task task ms pm lm ic npid).1.propsOf).done
          = (ic || task.isCompleted)) := by
  refine ⟨?_, ?_, ?_⟩
  · rw [sync_task_completion_status, statusFold_events_eq]
    simp only [List.nil_append, List.mem_flatMap]
    refine ⟨m, hm, ?_⟩
    unfold statusWritesFor
    simp [htid, hnid, hfind, hcomp, hdiff]
  · intro w hw
    rw [sync_task_completion_status, statusFold_events_eq] at hw
    simp only [List.nil_append, List.mem_flatMap] at hw
    obtain ⟨m', _, hw⟩ := hw
    exact mem_statusWritesFor _ _ _ _ hw
  · intro task ms pm lm ic npid
    unfold create_or_update_notion_task
    rcases h : cachedNotionPageId ms task.id with _ | pid <;>
      simp [h, NotionTaskWrite.propsOf, notionTaskProperties]

/-- Closed witness for `completion_conflict_resolved_by_overwrite`: the
sample mapped task is completed in Todoist, not in Notion, and the sync
patches the checkbox to `True`. -/
theorem completion_conflict_resolved_by_overwrite_witness :
    StatusWrite.patchDone "task-page-1" true
      ∈ (sync_task_completion_status [sampleTask] ["900"] [sampleMapping]
          [sampleTaskPageUndone]).2 :=
  (completion_conflict_resolved_by_overwrite [sampleTask] ["900"] [sampleMapping]
    [sampleTaskPageUndone] sampleMapping "900" "task-page-1" sampleTaskPageUndone
    (by decide) (by decide) (by decide) (by decide) rfl (by decide)).1

/-- The create branch appends one POST of `/tasks`, followed by one close
when the page is done and the POST succeeded. -/
theorem todoistTaskCreatePath_reqs (npage : NotionPage)
    (mappings : List TaskMapping) (env : TodoistTaskEnv) (isDone : Bool)
    (reqs : List TaskReq) :
    (todoistTaskCreatePath npage mappings env isDone reqs).reqs
        = reqs ++ [TaskReq.createTask]
    ∨ (todoistTaskCreatePath npage mappings env isDone reqs).reqs
        = reqs ++ [TaskReq.createTask, TaskReq.closeTask env.newTaskId] := by
  unfold todoistTaskCreatePath
  rcases hco : env.createOk <;> rcases hd : isDone <;> rcases hcn : env.closeNewOk <;>
    simp [hco, hd, hcn]

/-- The request tail the update-or-create branch appends after the payload
prefix: it is duplicate-free when the created task's id is fresh, contains
no label request, issues an existence check only for the resolved id, and
after a failed check contains the create POST but no update POST. -/
theorem todoistTaskSyncCore_tail (npage : NotionPage)
    (mappings : List TaskMapping) (env : TodoistTaskEnv) (isDone : Bool)
    (pre : List TaskReq) :
    ∃ tail, (todoistTaskSyncCore npage mappings env isDone pre).reqs = pre ++ tail
      ∧ (resolveTodoistId npage mappings ≠ some env.newTaskId → tail.Nodup)
      ∧ (∀ nm2, TaskReq.createLabel nm2 ∉ tail)
      ∧ (∀ tid, TaskReq.checkTask tid ∈ tail → resolveTodoistId npage mappings = some tid)
      ∧ (∀ tid, resolveTodoistId npage mappings = some tid → env.checkStatus ≠ 200 →
          TaskReq.createTask ∈ tail ∧ TaskReq.updateTask tid ∉ tail
          ∧ tail.count (TaskReq.checkTask tid) = 1) := by
  unfold todoistTaskSyncCore
  rcases hr : resolveTodoistId npage mappings with _ | tid' <;> dsimp only
  · rcases todoistTaskCreatePath_reqs npage mappings env isDone pre with hc | hc <;> rw [hc]
    · exact ⟨[TaskReq.createTask], rfl, fun _ => by simp, by simp, by simp, by simp⟩
    · exact ⟨[TaskReq.createTask, TaskReq.closeTask env.newTaskId], rfl,
        fun _ => by simp, by simp, by simp, by simp⟩
  · rcases hcs : (env.checkStatus == 200) <;>
      simp only [Bool.false_eq_true, Bool.true_eq_false, if_false, if_true]
    · -- failed existence check: fall to the create branch
      have hne : env.checkStatus ≠ 200 := by simpa using hcs
      rcases todoistTaskCreatePath_reqs npage mappings env isDone
          (pre ++ [TaskReq.checkTask tid']) with hc | hc <;>
        rw [hc, List.append_assoc]
      · refine ⟨_, rfl, fun _ => by simp, by simp, ?_, ?_⟩
        · intro t ht
          simp at ht
          simp [ht]
        · intro t ht hs
          injection ht with ht
          subst ht
          simp [List.count_cons]
      · refine ⟨_, rfl, fun _ => by simp, by simp, ?_, ?_⟩
        · intro t ht
          simp at ht
          simp [ht]
        · intro t ht hs
          injection ht with ht
          subst ht
          simp [List.count_cons]
    · -- check succeeded
      have hne : env.checkStatus = 200 := by simpa using hcs
      rcases hu : env.updateOk <;>
        simp only [Bool.false_eq_true, Bool.true_eq_false, if_false, if_true]
      · -- the update POST raised: fall to the create branch
        rcases todoistTaskCreatePath_reqs npage mappings env isDone
            (pre ++ [TaskReq.checkTask tid', TaskReq.updateTask tid']) with hc | hc <;>
          rw [hc, List.append_assoc]
        · refine ⟨_, rfl, fun _ => by simp, by simp, ?_, ?_⟩
          · intro t ht
            simp at ht
            simp [ht]
          · intro t ht hs
            exact absurd hne hs
        · refine ⟨_, rfl, ?_, by simp, ?_, ?_⟩
          · intro hf
            have hne2 : tid' ≠ env.newTaskId := fun he => hf (by rw [he])
            simp [hne2]
          · intro t ht
            simp at ht
            simp [ht]
          · intro t ht hs
            exact absurd hne hs
      · rcases h1 : (isDone && !env.checkCompleted) <;>
          simp only [Bool.false_eq_true, Bool.true_eq_false, if_false, if_true]
        · rcases h2 : (!isDone && env.checkCompleted) <;>
            simp only [Bool.false_eq_true, Bool.true_eq_false, if_false, if_true]
          · -- no completion toggle
            refine ⟨_, rfl, fun _ => by simp, by simp, ?_, ?_⟩
            · intro t ht
              simp at ht
              simp [ht]
            · intro t ht hs
              exact absurd hne hs
          · rcases h3 : env.closeReopenOk <;>
              simp only [Bool.false_eq_true, Bool.true_eq_false, if_false, if_true]
            · -- reopen raised: fall to the create branch
              rcases todoistTaskCreatePath_reqs npage mappings env isDone
                  (pre ++ [TaskReq.checkTask tid', TaskReq.updateTask tid',
                    TaskReq.reopenTask tid']) with hc | hc <;>
                rw [hc, List.append_assoc]
              · refine ⟨_, rfl, fun _ => by simp, by simp, ?_, ?_⟩
                · intro t ht
                  simp at ht
                  simp [ht]
                · intro t ht hs
                  exact absurd hne hs
              · refine ⟨_, rfl, ?_, by simp, ?_, ?_⟩
                · intro hf
                  have hne2 : tid' ≠ env.newTaskId := fun he => hf (by rw [he])
                  simp [hne2]
                · intro t ht
                  simp at ht
                  simp [ht]
                · intro t ht hs
                  exact absurd hne hs
            · refine ⟨_, rfl, fun _ => by simp, by simp, ?_, ?_⟩
              · intro t ht
                simp at ht
                simp [ht]
              · intro t ht hs
                exact absurd hne hs
        · rcases h3 : env.closeReopenOk <;>
            simp only [Bool.false_eq_true, Bool.true_eq_false, if_false, if_true]
          · -- close raised: fall to the create branch
            rcases todoistTaskCreatePath_reqs npage mappings env isDone
                (pre ++ [TaskReq.checkTask tid', TaskReq.updateTask tid',
                  TaskReq.closeTask tid']) with hc | hc <;>
              rw [hc, List.append_assoc]
            · refine ⟨_, rfl, fun _ => by simp, by simp, ?_, ?_⟩
              · intro t ht
                simp at ht
                simp [ht]
              · intro t ht hs
                exact absurd hne hs
            · refine ⟨_, rfl, ?_, by simp, ?_, ?_⟩
              · intro hf
                have hne2 : tid' ≠ env.newTaskId := fun he => hf (by rw [he])
                simp [hne2]
              · intro t ht
                simp at ht
                simp [ht]
              · intro t ht hs
                exact absurd hne hs
          · refine ⟨_, rfl, fun _ => by simp, by simp, ?_, ?_⟩
            · intro t ht
              simp at ht
              simp [ht]
            · intro t ht hs
              exact absurd hne hs

/-- The request trace of `create_or_update_todoist_task` is empty (Name
`KeyError`), a single failed label creation, or the update-or-create trace
over a payload prefix of at most one label creation. -/
theorem create_or_update_todoist_task_reqs_shape (npage : NotionPage)
    (mappings : List TaskMapping) (labels : List (String × String))
    (env : TodoistTaskEnv) :
    (create_or_update_todoist_task npage mappings labels env).reqs = []
    ∨ (∃ ty, (create_or_update_todoist_task npage mappings labels env).reqs
        = [TaskReq.createLabel ty])
    ∨ (∃ pre, (pre = [] ∨ ∃ ty, pre = [TaskReq.createLabel ty])
        ∧ (create_or_update_todoist_task npage mappings labels env).reqs
            = (todoistTaskSyncCore npage mappings env npage.doneCheckbox pre).reqs) := by
  unfold create_or_update_todoist_task
  rcases npage.nameTitle with _ | nm
  · left
    rfl
  · rcases hts : npage.typeSelect with _ | ty
    · right; right
      exact ⟨[], Or.inl rfl, rfl⟩
    · rcases hf : labels.find? (fun l => l.2 == ty) with _ | l
      · rcases hlc : env.labelCreateOk
        · right; left
          exact ⟨ty, by simp [get_or_create_label, hf, hlc, Except.map]⟩
        · right; right
          exact ⟨[TaskReq.createLabel ty], Or.inr ⟨ty, rfl⟩,
            by simp [get_or_create_label, hf, hlc, Except.map]⟩
      · right; right
        exact ⟨[], Or.inl rfl, by simp [get_or_create_label, hf, Except.map]⟩

/-- Claim C7: no operation retries.  `get_todoist_projects` issues exactly
one request per call; every HTTP request of
`create_or_update_todoist_task` is issued at most once per call (the trace
is duplicate-free, given that Todoist assigns a fresh id to a created
task); and after a failed existence check the function issues the create
POST — it re-issues neither the check nor the update for that id. -/
theorem no_retry_single_issue (npage : NotionPage) (mappings : List TaskMapping)
    (labels : List (String × String)) (env : TodoistTaskEnv) (tid : String)
    (hfresh : resolveTodoistId npage mappings ≠ some env.newTaskId) :
    get_todoist_projects_requests.length = 1
    ∧ (create_or_update_todoist_task npage mappings labels env).reqs.Nodup
    ∧ (env.checkStatus ≠ 200 →
        TaskReq.checkTask tid ∈ (create_or_update_todoist_task npage mappings labels env).reqs →
        TaskReq.createTask ∈ (create_or_update_todoist_task npage mappings labels env).reqs
        ∧ TaskReq.updateTask tid ∉ (create_or_update_todoist_task npage mappings labels env).reqs
        ∧ (create_or_update_todoist_task npage mappings labels env).reqs.count
            (TaskReq.checkTask tid) = 1) := by
  have hshape := create_or_update_todoist_task_reqs_shape npage mappings labels env
  refine ⟨rfl, ?_, ?_⟩
  · rcases hshape with h0 | ⟨ty, h0⟩ | ⟨pre, hpre, h0⟩ <;> rw [h0]
    · exact List.nodup_nil
    · simp
    · obtain ⟨tail, heq, hnodup, hnolabel, hcheck, hfail⟩ :=
        todoistTaskSyncCore_tail npage mappings env npage.doneCheckbox pre
      rw [heq]
      rw [List.nodup_append]
      refine ⟨?_, hnodup hfresh, ?_⟩
      · rcases hpre with h | ⟨ty, h⟩ <;> rw [h] <;> simp
      · intro a ha hb
        rcases hpre with h | ⟨ty, h⟩ <;> rw [h] at ha
        · simp at ha
        · simp at ha
          subst ha
          exact hnolabel ty hb
  · intro hks hin
    rcases hshape with h0 | ⟨ty, h0⟩ | ⟨pre, hpre, h0⟩ <;> rw [h0] at hin ⊢
    · simp at hin
    · simp at hin
    · obtain ⟨tail, heq, hnodup, hnolabel, hcheck, hfail⟩ :=
        todoistTaskSyncCore_tail npage mappings env npage.doneCheckbox pre
      rw [heq] at hin ⊢
      have hintail : TaskReq.checkTask tid ∈ tail := by
        rcases List.mem_append.mp hin with h | h
        · rcases hpre with hp | ⟨ty, hp⟩ <;> rw [hp] at h <;> simp at h
        · exact h
      have hres := hcheck tid hintail
      obtain ⟨hcr, hup, hcount⟩ := hfail tid hres hks
      refine ⟨List.mem_append.mpr (Or.inr hcr), ?_, ?_⟩
      · intro hmem
        rcases List.mem_append.mp hmem with h | h
        · rcases hpre with hp | ⟨ty, hp⟩ <;> rw [hp] at h <;> simp at h
        · exact hup h
      · rw [List.count_append, hcount]
        have hzero : pre.count (TaskReq.checkTask tid) = 0 := by
          rcases hpre with hp | ⟨ty, hp⟩ <;> rw [hp] <;> simp
        rw [hzero]

/-- Closed witness for `no_retry_single_issue`: the sample page resolves to
the existing id "900" while a created task would get the fresh id
"901". -/
theorem no_retry_single_issue_witness :
    get_todoist_projects_requests.length = 1 :=
  (no_retry_single_issue sampleTaskPage [sampleMapping] [] sampleTaskEnv "900"
    (by decide)).1

/-- Phase-shape bounds can be relaxed. -/
theorem PhasedLe.mono {tr : List SyncEvent} {lo hi lo' hi' : Nat}
    (h : PhasedLe tr lo hi) (h1 : lo' ≤ lo) (h2 : hi ≤ hi') :
    PhasedLe tr lo' hi' := by
  refine ⟨h.1, fun e he => ?_⟩
  exact ⟨le_trans h1 (h.2 e he).1, le_trans (h.2 e he).2 h2⟩

/-- Concatenating phase-shaped slices around a middle phase `m` keeps the
shape. -/
theorem PhasedLe.append (m : Nat) {l1 l2 : List SyncEvent} {lo hi : Nat}
    (h1 : PhasedLe l1 lo m) (h2 : PhasedLe l2 m hi) (hlm : lo ≤ m)
    (hmh : m ≤ hi) : PhasedLe (l1 ++ l2) lo hi := by
  constructor
  · rw [List.map_append, List.pairwise_append]
    refine ⟨h1.1, h2.1, ?_⟩
    intro a ha b hb
    rw [List.mem_map] at ha hb
    obtain ⟨e1, he1, rfl⟩ := ha
    obtain ⟨e2, he2, rfl⟩ := hb
    exact le_trans (h1.2 e1 he1).2 (h2.2 e2 he2).1
  · intro e he
    rcases List.mem_append.mp he with h | h
    · exact ⟨(h1.2 e h).1, le_trans (h1.2 e h).2 hmh⟩
    · exact ⟨le_trans hlm (h2.2 e h).1, (h2.2 e h).2⟩

/-- A slice of constant phase `k` is phase-shaped for any enclosing
bounds. -/
theorem phasedLe_of_const (tr : List SyncEvent) (k lo hi : Nat)
    (h : ∀ e ∈ tr, SyncEvent.phase e = k) (h1 : lo ≤ k) (h2 : k ≤ hi) :
    PhasedLe tr lo hi := by
  constructor
  · rw [List.pairwise_map]
    have : ∀ a ∈ tr, ∀ b ∈ tr, a.phase ≤ b.phase := by
      intro a ha b hb
      rw [h a ha, h b hb]
    exact List.pairwise_of_forall_mem_list this
  · intro e he
    rw [h e he]
    exact ⟨h1, h2⟩

/-- Every event of the Todoist→Notion project loop has phase 3. -/
theorem projTNLoop_phase (env : SyncEnv) (nps : List NotionPage) :
    ∀ (l : List TodoistProject) (r : SyncResults),
      ∀ e ∈ (projTNLoop env nps l r).2, SyncEvent.phase e = 3 := by
  intro l
  induction l with
  | nil =>
    intro r e he
    simp [projTNLoop] at he
  | cons p rest ih =>
    intro r e he
    simp only [projTNLoop] at he
    rcases List.mem_cons.mp he with rfl | he
    · rfl
    · exact ih _ e he

/-- Every item of the Todoist→Notion project loop contributes its event,
whether its sync call succeeds or raises. -/
theorem projTNLoop_mem (env : SyncEnv) (nps : List NotionPage) :
    ∀ (l : List TodoistProject) (r : SyncResults) (p : TodoistProject),
      p ∈ l → SyncEvent.syncProjectTN p.name ∈ (projTNLoop env nps l r).2 := by
  intro l
  induction l with
  | nil =>
    intro r p hp
    simp at hp
  | cons q rest ih =>
    intro r p hp
    simp only [projTNLoop]
    rcases List.mem_cons.mp hp with rfl | hp
    · exact List.mem_cons_self _ _
    · exact List.mem_cons_of_mem _ (ih _ p hp)

/-- Every event of the Notion→Todoist project loop has phase 5. -/
theorem projNTLoop_phase (env : SyncEnv) :
    ∀ (l : List NotionPage) (r : SyncResults),
      ∀ e ∈ (projNTLoop env l r).1.2, SyncEvent.phase e = 5 := by
  intro l
  induction l with
  | nil =>
    intro r e he
    simp [projNTLoop] at he
  | cons p rest ih =>
    intro r e he
    rw [projNTLoop] at he
    by_cases hs : (p.sourceName == some "Todoist") = true
    · rw [if_pos hs] at he
      exact ih _ e he
    · rw [if_neg hs] at he
      rcases hok : env.syncProjNT p with err | u <;> rw [hok] at he
      · rcases hnm : p.nameTitle with _ | nm <;> rw [hnm] at he
        · rcases List.mem_singleton.mp he with rfl
          rfl
        · rcases List.mem_cons.mp he with rfl | he
          · rfl
          · exact ih _ e he
      · rcases List.mem_cons.mp he with rfl | he
        · rfl
        · exact ih _ e he

/-- Every event of the Todoist→Notion task loop has phase 11. -/
theorem taskTNLoop_phase (env : SyncEnv) (ids : List String) :
    ∀ (l : List TodoistTask) (r : SyncResults),
      ∀ e ∈ (taskTNLoop env ids l r).2, SyncEvent.phase e = 11 := by
  intro l
  induction l with
  | nil =>
    intro r e he
    simp [taskTNLoop] at he
  | cons t rest ih =>
    intro r e he
    simp only [taskTNLoop] at he
    rcases List.mem_cons.mp he with rfl | he
    · rfl
    · exact ih _ e he

/-- Every event of the completed-task loop has phase 12. -/
theorem completedTNLoop_phase (env : SyncEnv) :
    ∀ (l : List TodoistTask) (r : SyncResults),
      ∀ e ∈ (completedTNLoop env l r).2, SyncEvent.phase e = 12 := by
  intro l
  induction l with
  | nil =>
    intro r e he
    simp [completedTNLoop] at he
  | cons t rest ih =>
    intro r e he
    simp only [completedTNLoop] at he
    rcases List.mem_cons.mp he with rfl | he
    · rfl
    · exact ih _ e he

/-- Every event of the Notion→Todoist task loop has phase 13. -/
theorem taskNTLoop_phase (env : SyncEnv) :
    ∀ (l : List NotionPage) (r : SyncResults),
      ∀ e ∈ (taskNTLoop env l r).1.2, SyncEvent.phase e = 13 := by
  intro l
  induction l with
  | nil =>
    intro r e he
    simp [taskNTLoop] at he
  | cons t rest ih =>
    intro r e he
    rw [taskNTLoop] at he
    rcases hok : env.syncTaskNT t with err | u <;> rw [hok] at he
    · rcases hnm : t.nameTitle with _ | nm <;> rw [hnm] at he
      · rcases List.mem_singleton.mp he with rfl
        rfl
      · rcases List.mem_cons.mp he with rfl | he
        · rfl
        · exact ih _ e he
    · rcases List.mem_cons.mp he with rfl | he
      · rfl
      · exact ih _ e he


/-- The `try` body of `sync_all` produces a trace whose phases follow the
source order (phases 0 to 13, nondecreasing), always starts with the
Todoist project fetch, and — once the two initial fetches succeeded —
contains one Todoist→Notion sync event per fetched Todoist project,
whether or not individual item syncs fail. -/
theorem syncBody_shape (env : SyncEnv) :
    PhasedLe (syncBody env).2 0 13
    ∧ (syncBody env).2.head? = some SyncEvent.fetchTodoistProjects
    ∧ (∀ tps0 nps0, env.todoistProjects = .ok tps0 → env.notionProjects1 = .ok nps0 →
        ∀ p ∈ tps0, SyncEvent.syncProjectTN p.name ∈ (syncBody env).2) := by
  unfold syncBody
  rcases h1 : env.todoistProjects with e1 | tps <;> (try dsimp only)
  · refine ⟨by decide, rfl, ?_⟩
    intro tps0 nps0 htp hnp p hp
    cases htp
  · rcases h2 : env.notionProjects1 with e2 | nps <;> (try dsimp only)
    · refine ⟨by decide, rfl, ?_⟩
      intro tps0 nps0 htp hnp p hp
      cases hnp
    · try dsimp only
      have htps0 : ∀ tps0 : List TodoistProject,
          (Except.ok tps : Except String (List TodoistProject)) = Except.ok tps0 →
            tps0 = tps := by
        intro tps0 h
        injection h with h
        exact h.symm
      have htr1 : ∀ hi, 3 ≤ hi → PhasedLe
          ([SyncEvent.fetchTodoistProjects, SyncEvent.fetchNotionProjects,
            SyncEvent.fetchCategories]
            ++ (projTNLoop env nps tps SyncResults.init).2) 0 hi := by
        intro hi hhi
        refine PhasedLe.append 3 (by decide) ?_ (by norm_num) hhi
        exact phasedLe_of_const _ 3 _ _ (projTNLoop_phase env nps _ _) le_rfl hhi
      have hmem1 : ∀ p ∈ tps, SyncEvent.syncProjectTN p.name ∈
          ([SyncEvent.fetchTodoistProjects, SyncEvent.fetchNotionProjects,
            SyncEvent.fetchCategories]
            ++ (projTNLoop env nps tps SyncResults.init).2) :=
        fun p hp => List.mem_append.mpr (Or.inr (projTNLoop_mem env nps tps _ p hp))
      have htr2 : ∀ hi, 4 ≤ hi → PhasedLe
          (([SyncEvent.fetchTodoistProjects, SyncEvent.fetchNotionProjects,
            SyncEvent.fetchCategories]
            ++ (projTNLoop env nps tps SyncResults.init).2)
            ++ [SyncEvent.fetchNotionProjectsAgain]) 0 hi := by
        intro hi hhi
        refine PhasedLe.append 4 (htr1 4 (by norm_num)) ?_ (by norm_num) hhi
        exact (by decide : PhasedLe [SyncEvent.fetchNotionProjectsAgain] 4 4).mono
          le_rfl hhi
      have hmem2 : ∀ p ∈ tps, SyncEvent.syncProjectTN p.name ∈
          (([SyncEvent.fetchTodoistProjects, SyncEvent.fetchNotionProjects,
            SyncEvent.fetchCategories]
            ++ (projTNLoop env nps tps SyncResults.init).2)
            ++ [SyncEvent.fetchNotionProjectsAgain]) :=
        fun p hp => List.mem_append.mpr (Or.inl (hmem1 p hp))
      rcases h3 : env.notionProjects2 with e3 | nps2 <;> (try dsimp only)
      · refine ⟨?_, rfl, ?_⟩
        · refine PhasedLe.append 4 (htr1 4 (by norm_num)) (by decide)
            (by norm_num) (by norm_num)
        · intro tps0 nps0 htp hnp p hp
          rw [htps0 tps0 htp] at hp
          have hm := hmem1 p hp
          simp only [List.mem_append] at hm ⊢
          tauto
      · try dsimp only
        rcases h4 : (projNTLoop env nps2 (projTNLoop env nps tps SyncResults.init).1).2
            with _ | e4 <;> (try dsimp only)
        -- continue branch (no abort in the N→T project loop)
        · rcases h5 : env.notionProjects3 with e5 | nps3 <;> (try dsimp only)
          · refine ⟨?_, rfl, ?_⟩
            · refine PhasedLe.append 6 ?_ (by decide) (by norm_num) (by norm_num)
              refine PhasedLe.append 5 (htr2 5 (by norm_num))
                (phasedLe_of_const _ 5 _ _ (projNTLoop_phase env _ _) le_rfl
                  (by norm_num)) (by norm_num) (by norm_num)
            · intro tps0 nps0 htp hnp p hp
              rw [htps0 tps0 htp] at hp
              have hm := hmem1 p hp
              simp only [List.mem_append] at hm ⊢
              tauto
          · try dsimp only
            rcases h6 : env.todoistTasks with e6 | tts <;> (try dsimp only)
            · refine ⟨?_, rfl, ?_⟩
              · refine PhasedLe.append 7 ?_ (by decide) (by norm_num) (by norm_num)
                refine PhasedLe.append 6 ?_ (by decide) (by norm_num) (by norm_num)
                refine PhasedLe.append 5 (htr2 5 (by norm_num))
                  (phasedLe_of_const _ 5 _ _ (projNTLoop_phase env _ _) le_rfl
                    (by norm_num)) (by norm_num) (by norm_num)
              · intro tps0 nps0 htp hnp p hp
                rw [htps0 tps0 htp] at hp
                have hm := hmem1 p hp
                simp only [List.mem_append] at hm ⊢
                tauto
            · rcases h7 : env.notionTasks with e7 | nts <;> (try dsimp only)
              · refine ⟨?_, rfl, ?_⟩
                · refine PhasedLe.append 7 ?_ (by decide) (by norm_num) (by norm_num)
                  refine PhasedLe.append 6 ?_ (by decide) (by norm_num) (by norm_num)
                  refine PhasedLe.append 5 (htr2 5 (by norm_num))
                    (phasedLe_of_const _ 5 _ _ (projNTLoop_phase env _ _) le_rfl
                      (by norm_num)) (by norm_num) (by norm_num)
                · intro tps0 nps0 htp hnp p hp
                  rw [htps0 tps0 htp] at hp
                  have hm := hmem1 p hp
                  simp only [List.mem_append] at hm ⊢
                  tauto
              · rcases h8 : env.todoistLabels with e8 | labs <;> (try dsimp only)
                · refine ⟨?_, rfl, ?_⟩
                  · refine PhasedLe.append 7 ?_ (by decide) (by norm_num) (by norm_num)
                    refine PhasedLe.append 6 ?_ (by decide) (by norm_num) (by norm_num)
                    refine PhasedLe.append 5 (htr2 5 (by norm_num))
                      (phasedLe_of_const _ 5 _ _ (projNTLoop_phase env _ _) le_rfl
                        (by norm_num)) (by norm_num) (by norm_num)
                  · intro tps0 nps0 htp hnp p hp
                    rw [htps0 tps0 htp] at hp
                    have hm := hmem1 p hp
                    simp only [List.mem_append] at hm ⊢
                    tauto
                · rcases h9 : env.statusSyncFails with _ | e9 <;> (try dsimp only)
                  -- status pass succeeded: the task phases follow
                  · try dsimp only
                    refine ⟨?_, rfl, ?_⟩
                    · refine PhasedLe.append 13 ?_
                        (phasedLe_of_const _ 13 _ _ (taskNTLoop_phase env _ _)
                          le_rfl le_rfl) (by norm_num) (by norm_num)
                      refine PhasedLe.append 12 ?_
                        ((phasedLe_of_const _ 12 _ _ (completedTNLoop_phase env _ _)
                          le_rfl le_rfl).mono le_rfl (by norm_num))
                        (by norm_num) (by norm_num)
                      refine PhasedLe.append 11 ?_
                        ((phasedLe_of_const _ 11 _ _ (taskTNLoop_phase env _ _ _)
                          le_rfl le_rfl).mono le_rfl (by norm_num))
                        (by norm_num) (by norm_num)
                      refine PhasedLe.append 10 ?_ (by decide) (by norm_num) (by norm_num)
                      refine PhasedLe.append 7 ?_ (by decide) (by norm_num) (by norm_num)
                      refine PhasedLe.append 6 ?_ (by decide) (by norm_num) (by norm_num)
                      refine PhasedLe.append 5 (htr2 5 (by norm_num))
                        (phasedLe_of_const _ 5 _ _ (projNTLoop_phase env _ _) le_rfl
                          (by norm_num)) (by norm_num) (by norm_num)
                    · intro tps0 nps0 htp hnp p hp
                      rw [htps0 tps0 htp] at hp
                      have hm := hmem1 p hp
                      simp only [List.mem_append] at hm ⊢
                      tauto
                  · refine ⟨?_, rfl, ?_⟩
                    · refine PhasedLe.append 10 ?_ (by decide) (by norm_num) (by norm_num)
                      refine PhasedLe.append 7 ?_ (by decide) (by norm_num) (by norm_num)
                      refine PhasedLe.append 6 ?_ (by decide) (by norm_num) (by norm_num)
                      refine PhasedLe.append 5 (htr2 5 (by norm_num))
                        (phasedLe_of_const _ 5 _ _ (projNTLoop_phase env _ _) le_rfl
                          (by norm_num)) (by norm_num) (by norm_num)
                    · intro tps0 nps0 htp hnp p hp
                      rw [htps0 tps0 htp] at hp
                      have hm := hmem1 p hp
                      simp only [List.mem_append] at hm ⊢
                      tauto
        -- the N→T project loop re-raised from its error handler
        · refine ⟨?_, rfl, ?_⟩
          · refine PhasedLe.append 5 (htr2 5 (by norm_num))
              (phasedLe_of_const _ 5 _ _ (projNTLoop_phase env _ _) le_rfl
                (by norm_num)) (by norm_num) (by norm_num)
          · intro tps0 nps0 htp hnp p hp
            rw [htps0 tps0 htp] at hp
            have hm := hmem1 p hp
            simp only [List.mem_append] at hm ⊢
            tauto


/-- Claim C5: `sync_all` follows the stated algorithm steps in order.  Its
vendor-interaction trace always begins with the Todoist project fetch, and
the trace phases — initial fetches, projects Todoist→Notion, the Notion
refetch, projects Notion→Todoist, the final refetch for id-map
construction, the task/label fetches, the status pass, tasks
Todoist→Notion, completed tasks, tasks Notion→Todoist, and the history
write — occur in nondecreasing source order on every run. -/
theorem sync_all_phases_in_order (env : SyncEnv) :
    ((sync_all env).2.map SyncEvent.phase).Pairwise (fun a b => a ≤ b)
    ∧ (sync_all env).2.head? = some SyncEvent.fetchTodoistProjects := by
  have hb := syncBody_shape env
  constructor
  · have hall : PhasedLe (sync_all env).2 0 14 := by
      unfold sync_all
      rcases hw : env.historyWrite with e | u <;> dsimp only <;>
        exact PhasedLe.append 14 (hb.1.mono le_rfl (by norm_num)) (by decide)
          (by norm_num) (by norm_num)
    exact hall.1
  · have hb2 := hb.2.1
    obtain ⟨rest, hrest⟩ : ∃ rest, (syncBody env).2
        = SyncEvent.fetchTodoistProjects :: rest := by
      rcases hsb : (syncBody env).2 with _ | ⟨a, rest⟩
      · rw [hsb] at hb2
        cases hb2
      · rw [hsb] at hb2
        injection hb2 with hb2
        exact ⟨rest, by rw [hb2]⟩
    unfold sync_all
    rcases hw : env.historyWrite with e | u <;> dsimp only <;> rw [hrest] <;> rfl

/-- Closed witness for `sync_all_phases_in_order` at the all-success
environment. -/
theorem sync_all_phases_in_order_witness :
    (sync_all envAllOk).2.head? = some SyncEvent.fetchTodoistProjects :=
  (sync_all_phases_in_order envAllOk).2

/-- Counterexample to claim C9 as stated: in an environment in which every
vendor call succeeds but the final `sync_history` Firestore `add`
(src/main.py line 484, outside the `try` block) fails, `sync_all`
propagates that failure to its caller instead of returning the results
dictionary. -/
theorem sync_all_propagates_history_write_failure :
    (sync_all envHistoryFail).1 = .error "ServiceUnavailable: firestore" := rfl

/-- Claim C9 (amended): no exception raised inside the sync body escapes
`sync_all` — a failure while syncing a single project or task is appended
to the corresponding errors list and the loop continues with the next item
(every fetched Todoist project still gets its sync attempt), any other
failure inside the body sets the results' `error` field — and `sync_all`
then issues exactly one `sync_history` write and returns the results
dictionary.  Only a failure of that final history write itself, which sits
outside the `try` block, propagates to the caller. -/
theorem sync_all_absorbs_body_failures (env : SyncEnv)
    (h : env.historyWrite = .ok ()) :
    (∃ r : SyncResults, (sync_all env).1 = .ok r)
    ∧ (sync_all env).2.count SyncEvent.writeHistory = 1
    ∧ (∀ tps0 nps0, env.todoistProjects = .ok tps0 → env.notionProjects1 = .ok nps0 →
        ∀ p ∈ tps0, SyncEvent.syncProjectTN p.name ∈ (sync_all env).2) := by
  have hb := syncBody_shape env
  have hnotin : SyncEvent.writeHistory ∉ (syncBody env).2 := by
    intro hmem
    have hle := (hb.1.2 _ hmem).2
    simp [SyncEvent.phase] at hle
  refine ⟨?_, ?_, ?_⟩
  · unfold sync_all
    rw [h]
    exact ⟨(syncBody env).1, rfl⟩
  · unfold sync_all
    rw [h]
    dsimp only
    rw [List.count_append, List.count_eq_zero.mpr hnotin]
    rfl
  · intro tps0 nps0 htp hnp p hp
    unfold sync_all
    rw [h]
    dsimp only
    exact List.mem_append.mpr (Or.inl (hb.2.2 tps0 nps0 htp hnp p hp))

/-- Closed witness for `sync_all_absorbs_body_failures` at the all-success
environment. -/
theorem sync_all_absorbs_body_failures_witness :
    (sync_all envAllOk).2.count SyncEvent.writeHistory = 1 :=
  (sync_all_absorbs_body_failures envAllOk rfl).2.1


/-- Claim C6: the sync executes as one linear pass.  The transition system
of `sync_all` is deterministic — at every program point, with the vendor
responses fixed, there is exactly one next interaction and one successor
point, so the run is a single totally-ordered sequence with no
interleaving — and every step performs at most one request. -/
theorem sync_machine_deterministic (env : SyncEnv) (m m1 m2 : Mode)
    (e1 e2 : Option SyncEvent) (h1 : Step env m e1 m1) (h2 : Step env m e2 m2) :
    (e1 = e2 ∧ m1 = m2) ∧ e1.toList.length ≤ 1 := by
  have hone : e1.toList.length ≤ 1 := by
    cases e1 <;> simp
  refine ⟨?_, hone⟩
  cases h1 <;> cases h2 <;> simp_all

/-- Closed witness for `sync_machine_deterministic`: two steps out of the
initial point of the all-success environment coincide. -/
theorem sync_machine_deterministic_witness :
    ((some SyncEvent.fetchTodoistProjects = some SyncEvent.fetchTodoistProjects)
      ∧ (Mode.fetchedProjects ([] : List TodoistProject)
          = Mode.fetchedProjects ([] : List TodoistProject)))
    ∧ (some SyncEvent.fetchTodoistProjects).toList.length ≤ 1 :=
  sync_machine_deterministic envAllOk .start _ _ _ _
    (Step.fetchTPOk [] rfl) (Step.fetchTPOk [] rfl)

end ProductivitySync


